import Mathlib

/-!
Verification of the authoritative eight-ball server (server.js).

The repository ships two iterations of the same server in one file:
the first variant (server.js lines 1-435) and the second, current variant
(lines 437-835).  The second variant is embedded here in namespace `Pool`;
the parts of the first variant that the claims cite are embedded in
namespace `Pool.V1`.

Modelling conventions, applied uniformly:
* JS numbers are modelled by the rationals.  Math.hypot appears in the
  source only (a) compared against a nonnegative bound, which is embedded by
  the exactly equivalent comparison of squares (hypot x y ≤ c iff
  x^2 + y^2 ≤ c^2 for 0 ≤ c), or (b) as the collision distance, which is
  modelled by ratSqrt (exact whenever the squared distance is a perfect
  square; every concrete evaluation below is on such inputs).
* Math.cos(m.angle) and Math.sin(m.angle) are not rational-valued, so the
  shoot message carries the two evaluated direction components.
* The JS disjunction (x || d) on numbers/strings is modelled by jsOr
  (the default is taken on a missing or zero/empty value).
* Reading a property of undefined throws a TypeError in JS; a handler that
  can throw is modelled with an Option result, none being the uncaught throw.
* The per-room WebSocket sends are collected in a returned message list.
* For the NaN-propagation behaviour of the shoot handler, namespace JS
  re-embeds the second variant's physics and shoot handler over JNum, the
  rationals with the IEEE NaN adjoined: arithmetic with nan yields nan,
  every ordering comparison involving nan is false, and the coercion
  (v || 0) sends nan (falsy) to the default.  Math.cos and Math.sin of a
  missing or non-numeric angle are NaN, carried as the evaluated direction
  components of the shoot message.
-/

namespace Pool

/-- Game configuration constants of the second server variant
(server.js lines 450-463). -/
def TABLE_W : ℚ := 800

/-- Table height (server.js line 450). -/
def TABLE_H : ℚ := 400

/-- Ball radius (server.js line 451). -/
def BALL_R : ℚ := 10

/-- Pocket capture radius (server.js line 452). -/
def POCKET_RADIUS : ℚ := 28

/-- Near-pocket capture margin (server.js line 453). -/
def POCKET_NEAR_MARGIN : ℚ := 8

/-- Ticks per second (server.js line 454). -/
def TICK_RATE : ℚ := 60

/-- Broadcast rate (server.js line 455). -/
def BROADCAST_RATE : ℚ := 20

/-- Per-tick multiplicative velocity factor (server.js line 456). -/
def GLOBAL_FRICTION : ℚ := 993 / 1000

/-- Extra damping when very slow (server.js line 457). -/
def LOW_SPEED_FRICTION : ℚ := 88 / 100

/-- Stop threshold on speed (server.js line 458). -/
def STOP_THRESH : ℚ := 3 / 100

/-- Slow-speed threshold (server.js line 459). -/
def SLOW_SPEED : ℚ := 1 / 4

/-- Shot power scale (server.js line 460). -/
def SHOOT_SCALE : ℚ := 175

/-- Maximum seats in a room (server.js line 461). -/
def MAX_PLAYERS : Nat := 2

/-- Idle grace period in milliseconds (server.js line 462). -/
def ROOM_IDLE_MS : Int := 1000 * 60 * 5

/-- Cap on the stored pocketed list (server.js line 463). -/
def POCKET_CAP : Nat := 128

/-- The six pocket centres (server.js lines 464-467). -/
def POCKETS : List (ℚ × ℚ) :=
  [(0, 0), (TABLE_W / 2, 0), (TABLE_W, 0),
   (0, TABLE_H), (TABLE_W / 2, TABLE_H), (TABLE_W, TABLE_H)]

/-- Squared Euclidean norm.  The source compares Math.hypot x y against
nonnegative bounds; those comparisons are embedded via this square. -/
def hypotSq (x y : ℚ) : ℚ := x ^ 2 + y ^ 2

/-- JS disjunction (v || d) on an optional number: the default is taken when
the field is absent (undefined) or zero (falsy). -/
def jsOr (v : Option ℚ) (d : ℚ) : ℚ :=
  match v with
  | none => d
  | some x => if x = 0 then d else x

/-- JS disjunction (s || d) on an optional string: the default is taken
when the field is absent or the empty string (falsy). -/
def jsOrS (v : Option String) (d : String) : String :=
  match v with
  | none => d
  | some s => if s = "" then d else s

/-- Clamp helper (server.js line 478): clamp(v,a,b) = max(a, min(b, v)). -/
def clamp (v a b : ℚ) : ℚ := max a (min b v)

/-- A ball (server.js makeRack).  The color field is presentation-only data
never read by the game logic and is omitted. -/
structure Ball where
  id : String
  num : Nat
  x : ℚ
  y : ℚ
  r : ℚ
  vx : ℚ
  vy : ℚ
  stripe : Bool
deriving DecidableEq, Repr

/-- A seated player (server.js: the objects pushed onto room.players).  The
ws handle is transport and is omitted; id is the connection uuid. -/
structure Player where
  id : String
  name : String
deriving DecidableEq, Repr

/-- Group tags, the strings solids / stripes in the source. -/
inductive Group where
  | solids
  | stripes
deriving DecidableEq, Repr

/-- The complementary group. -/
def Group.other : Group → Group
  | .solids => .stripes
  | .stripes => .solids

/-- Mutable per-room simulation state (server.js line 569). -/
structure RoomState where
  balls : List Ball
  pocketed : List Nat
deriving DecidableEq, Repr

/-- A room of the second variant (server.js createRoom, lines 560-581).
assigned is the playerId-to-group object, modelled as an association list;
lastEvent stores the pocketed-numbers object of line 714. -/
structure Room where
  code : String
  hostId : Option String
  hostName : String
  players : List Player
  turnIndex : Nat
  assigned : Option (List (String × Group))
  state : RoomState
  ballInHand : Bool
  lastShooterId : Option String
  lastEvent : Option (List Nat)
  lastBroadcast : Int
  lastActive : Int
  shotInProgress : Bool
  pocketCountAtShot : Nat
deriving DecidableEq, Repr

/-- Outbound messages (the sendToRoom / ws.send payloads the claims
mention).  Payload fields that no claim consults are elided. -/
inductive OutMsg where
  | joined (code id : String)
  | stateMsg
  | assignedMsg (playerId : String) (group : Option Group)
  | foul (msg : String) (playerId : Option String)
  | gameOver (winner reason : String)
  | chat (sender msg : String)
  | error (msg : String)
  | shootRejected (reason : String)
  | placeRejected (reason : String)
deriving DecidableEq, Repr

/-- Rack construction (server.js makeRack, lines 480-501): the cue ball at
(130, TABLE_H/2) followed by balls 1..15 in the five-row triangle.  The
source increments n once per inner iteration, so the ball of row r, slot i
has number r(r+1)/2 + i + 1. -/
def makeRack : List Ball :=
  { id := "cue", num := 0, x := 130, y := TABLE_H / 2, r := BALL_R,
    vx := 0, vy := 0, stripe := false } ::
  (List.range 5).flatMap (fun row =>
    (List.range (row + 1)).map (fun i =>
      let n := row * (row + 1) / 2 + i + 1
      { id := "b" ++ toString n, num := n,
        x := (TABLE_W - 160) + (row : ℚ) * (BALL_R * 2 + 1 / 2),
        y := TABLE_H / 2 + ((i : ℚ) - (row : ℚ) / 2) * (BALL_R * 2 + 1 / 2),
        r := BALL_R, vx := 0, vy := 0, stripe := decide (9 ≤ n) }))

/-- Room construction (server.js createRoom, lines 560-581).  The random
code and the Date.now() stamp are inputs. -/
def createRoom (code hostName : String) (now : Int) : Room :=
  { code := code
    hostId := none
    hostName := hostName
    players := []
    turnIndex := 0
    assigned := none
    state := { balls := makeRack, pocketed := [] }
    ballInHand := false
    lastShooterId := none
    lastEvent := none
    lastBroadcast := 0
    lastActive := now
    shotInProgress := false
    pocketCountAtShot := 0 }

/-- Largest k below the fuel bound with k * k ≤ n, by structural descent
(an executable integer square root; the fuel n+1 suffices since
sqrt n ≤ n). -/
def natSqrtAux (n : Nat) : Nat → Nat
  | 0 => 0
  | k + 1 => if (k + 1) * (k + 1) ≤ n then k + 1 else natSqrtAux n k

/-- Integer square root, exact on perfect squares. -/
def natSqrt (n : Nat) : Nat := natSqrtAux n n

/-- Square root on the nonnegative rationals, exact whenever numerator and
denominator are perfect squares, which holds in every evaluation in this
file.  This models Math.hypot where the source reads the collision
distance itself; every comparison of the distance is embedded separately
via exact squared comparisons. -/
def ratSqrt (q : ℚ) : ℚ := (natSqrt q.num.toNat : ℚ) / (natSqrt q.den : ℚ)

/-- Collision resolver of the second variant (server.js lines 508-545).
Math.hypot(dx,dy) is zero exactly when dx^2 + dy^2 = 0, and
dist ≥ minDist exactly when minDist ≤ 0 or minDist^2 ≤ dx^2 + dy^2, so the
two guards are embedded by those square comparisons; the value of dist in
the overlap branch is the jitter 1/1000 when the centres coincide and
ratSqrt of the squared distance otherwise. -/
def resolveBallCollision (a b : Ball) : Ball × Ball :=
  let dx0 := b.x - a.x
  let dy0 := b.y - a.y
  let zero := hypotSq dx0 dy0 = 0
  let dx : ℚ := if zero then 1 / 1000 else dx0
  let dy : ℚ := if zero then 0 else dy0
  let minDist := a.r + b.r
  if if zero then minDist ≤ 1 / 1000
     else minDist ≤ 0 ∨ minDist ^ 2 ≤ hypotSq dx0 dy0 then (a, b)
  else
    let dist : ℚ := if zero then 1 / 1000 else ratSqrt (hypotSq dx0 dy0)
    let nx := dx / dist
    let ny := dy / dist
    let overlap := minDist - dist
    let correction := overlap / 2 + 1 / 1000
    let a1 := { a with x := a.x - nx * correction, y := a.y - ny * correction }
    let b1 := { b with x := b.x + nx * correction, y := b.y + ny * correction }
    let rvx := b1.vx - a1.vx
    let rvy := b1.vy - a1.vy
    let rel := rvx * nx + rvy * ny
    if 0 ≤ rel then (a1, b1)
    else
      let e : ℚ := 98 / 100
      let j := -(1 + e) * rel / 2
      let ix := j * nx
      let iy := j * ny
      ({ a1 with vx := a1.vx - ix, vy := a1.vy - iy },
       { b1 with vx := b1.vx + ix, vy := b1.vy + iy })

/-- The correction magnitude and contact normal the second-variant
resolver computes for a pair (server.js lines 513-527): the jittered
values when the centres coincide, otherwise the true difference vector
normalised by the distance.  Returned as (correction, nx, ny). -/
def collisionCorrection (a b : Ball) : ℚ × ℚ × ℚ :=
  let d2 := hypotSq (b.x - a.x) (b.y - a.y)
  let dist : ℚ := if d2 = 0 then 1 / 1000 else ratSqrt d2
  let nx := (if d2 = 0 then (1 : ℚ) / 1000 else b.x - a.x) / dist
  let ny := (if d2 = 0 then (0 : ℚ) else b.y - a.y) / dist
  ((a.r + b.r - dist) / 2 + 1 / 1000, nx, ny)

/-- Pocket test of the second variant (server.js ballShouldPocket, lines
547-558).  The source compares d = Math.hypot(dx,dy) with POCKET_RADIUS and
POCKET_RADIUS + POCKET_NEAR_MARGIN, and tests
proj > 0.4 * vecLen(vx,vy) * d / (POCKET_RADIUS + 1); since the right side
is nonnegative, that holds exactly when proj is positive and its square
beats the square of the right side.  All comparisons are embedded squared. -/
def ballShouldPocket (ball : Ball) : Bool :=
  POCKETS.any (fun p =>
    let dx := p.1 - ball.x
    let dy := p.2 - ball.y
    let d2 := hypotSq dx dy
    if d2 ≤ POCKET_RADIUS ^ 2 then true
    else if d2 ≤ (POCKET_RADIUS + POCKET_NEAR_MARGIN) ^ 2 then
      let proj := ball.vx * dx + ball.vy * dy
      decide (0 < proj ∧
        (4 / 10 : ℚ) ^ 2 * hypotSq ball.vx ball.vy * d2
          < proj ^ 2 * (POCKET_RADIUS + 1) ^ 2)
    else false)

/-- Sub-step length: velocities are px/sec, a tick is 1/TICK_RATE seconds,
split over two sub-steps (server.js lines 620-624). -/
def dtSub : ℚ := 1 / TICK_RATE / 2

/-- Per-ball sub-step integration and wall bounce (server.js lines 627-635):
move by velocity, then the four sequential clamp-and-reflect checks, each
reading the coordinate as left by the previous one. -/
def integrateBall (b : Ball) : Ball :=
  let x := b.x + b.vx * dtSub
  let y := b.y + b.vy * dtSub
  let px : ℚ × ℚ := if x - b.r < 0 then (b.r, -b.vx * (98 / 100)) else (x, b.vx)
  let px2 : ℚ × ℚ :=
    if TABLE_W < px.1 + b.r then (TABLE_W - b.r, -px.2 * (98 / 100)) else px
  let py : ℚ × ℚ := if y - b.r < 0 then (b.r, -b.vy * (98 / 100)) else (y, b.vy)
  let py2 : ℚ × ℚ :=
    if TABLE_H < py.1 + b.r then (TABLE_H - b.r, -py.2 * (98 / 100)) else py
  { b with x := px2.1, vx := px2.2, y := py2.1, vy := py2.2 }

/-- All-pairs in-place collision resolution (server.js lines 639-641): for
every i < j in index order, resolve the pair and write both balls back. -/
def collideAll (balls : List Ball) : List Ball :=
  ((List.range balls.length).foldl (fun arr i =>
    (List.range arr.size).foldl (fun arr j =>
      if i < j then
        match arr[i]?, arr[j]? with
        | some a, some b =>
          let ab := resolveBallCollision a b
          (arr.setD i ab.1).setD j ab.2
        | _, _ => arr
      else arr) arr) balls.toArray).toList

/-- One physics sub-step (server.js lines 626-642): integrate every ball,
then resolve all pairwise collisions. -/
def substep (balls : List Ball) : List Ball :=
  collideAll (balls.map integrateBall)

/-- Per-tick friction, extra slow-speed damping and stop snap (server.js
lines 645-651); speed comparisons are embedded squared (a nonnegative speed
is positive iff its square is, and below a positive bound iff its square
is below the squared bound). -/
def applyFriction (b : Ball) : Ball :=
  let vx := b.vx * GLOBAL_FRICTION
  let vy := b.vy * GLOBAL_FRICTION
  let v1 : ℚ × ℚ :=
    if 0 < hypotSq vx vy ∧ hypotSq vx vy < SLOW_SPEED ^ 2
    then (vx * LOW_SPEED_FRICTION, vy * LOW_SPEED_FRICTION) else (vx, vy)
  let v2 : ℚ × ℚ := if hypotSq v1.1 v1.2 < STOP_THRESH ^ 2 then (0, 0) else v1
  { b with vx := v2.1, vy := v2.2 }

/-- The physics of one full tick (server.js lines 620-651): two sub-steps,
then friction once. -/
def tickPhysics (balls : List Ball) : List Ball :=
  (substep (substep balls)).map applyFriction

/-- Pocket detection (server.js lines 653-662).  The source iterates the
index from the end, splicing each captured ball out and pushing its number,
so the remaining balls keep their order and the captured balls are listed
in reverse position order. -/
def pocketPhase (balls : List Ball) : List Ball × List Ball :=
  (balls.filter (fun b => !ballShouldPocket b),
   (balls.filter ballShouldPocket).reverse)

/-- Truncation of the stored pocketed list (server.js line 663):
slice(-POCKET_CAP) keeps the last POCKET_CAP entries. -/
def capPocketed (l : List Nat) : List Nat :=
  if POCKET_CAP < l.length then l.drop (l.length - POCKET_CAP) else l

/-- Shooter determination (server.js line 667): lastShooterId if set,
otherwise the seat before turnIndex modulo max 1 seats; with no players
the optional chaining yields undefined (none). -/
def shooterOf (room : Room) : Option String :=
  match room.lastShooterId with
  | some s => some s
  | none =>
    (room.players[(room.turnIndex + room.players.length - 1) %
      max 1 room.players.length]?).map Player.id

/-- Group ball numbers (server.js line 686): solids when the looked-up
group is the string solids, otherwise (stripes or undefined) stripes. -/
def groupNums (g : Option Group) : List Nat :=
  if g = some Group.solids then [1, 2, 3, 4, 5, 6, 7]
  else [9, 10, 11, 12, 13, 14, 15]

/-- One iteration of the assignment loop (server.js lines 671-679): a
captured ball that is neither the cue nor the eight, while assigned is
unset and a shooter exists, fixes every seated player's group; the
notification carries the lookup of the shooter in the fresh map. -/
def assignStep (players : List Player) (shooter : Option String)
    (acc : Option (List (String × Group)) × List OutMsg) (pb : Ball) :
    Option (List (String × Group)) × List OutMsg :=
  if pb.num = 0 ∨ pb.num = 8 then acc
  else
    match acc.1, shooter with
    | none, some sh =>
      let solids : Bool := decide (1 ≤ pb.num ∧ pb.num ≤ 7)
      let asg := players.map (fun pl =>
        (pl.id,
          if pl.id = sh then (if solids then Group.solids else Group.stripes)
          else (if solids then Group.stripes else Group.solids)))
      (some asg, acc.2 ++ [OutMsg.assignedMsg sh (List.lookup sh asg)])
    | _, _ => acc

/-- The assignment loop over this tick's captures (server.js lines
671-679). -/
def assignGroups (players : List Player) (shooter : Option String)
    (assigned : Option (List (String × Group))) (pocketedNow : List Ball) :
    Option (List (String × Group)) × List OutMsg :=
  pocketedNow.foldl (assignStep players shooter) (assigned, [])

/-- Opposing player name (server.js lines 683, 689):
players.find(p.id !== shooter)?.name || the string Opponent. -/
def opponentName (players : List Player) (shooter : Option String) : String :=
  jsOrS ((players.find? (fun p => decide (¬some p.id = shooter))).map Player.name)
    "Opponent"

/-- Shooting player name (server.js line 688):
players.find(p.id === shooter)?.name || the string Winner. -/
def shooterName (players : List Player) (shooter : Option String) : String :=
  jsOrS ((players.find? (fun p => decide (some p.id = shooter))).map Player.name)
    "Winner"

/-- Whether a captured object ball belongs to the shooter's group
(server.js lines 701-702); an undefined shooter group matches neither
string, so neither disjunct holds. -/
def madeBall (sg : Option Group) (pb : Ball) : Bool :=
  decide ((sg = some Group.solids ∧ 1 ≤ pb.num ∧ pb.num ≤ 7) ∨
          (sg = some Group.stripes ∧ ¬(1 ≤ pb.num ∧ pb.num ≤ 7)))

/-- Captured balls that count for the turn rule (server.js line 700: the
cue and the eight ball are skipped). -/
def objectBalls (pocketedNow : List Ball) : List Ball :=
  pocketedNow.filter (fun pb => decide (¬(pb.num ≤ 0 ∨ pb.num = 8)))

/-- Advance the turn one seat (server.js lines 707-708, 723). -/
def advanceTurn (turnIndex : Nat) (players : List Player) : Nat :=
  (turnIndex + 1) % max 1 players.length

/-- The madeOwn accumulator of the turn loop (server.js lines 696-705):
some qualifying captured ball is of the shooter's group; false whenever
assigned or the shooter is missing. -/
def madeOwnOf (assigned : Option (List (String × Group)))
    (shooter : Option String) (pocketedNow : List Ball) : Bool :=
  match assigned, shooter with
  | some m, some sh => (objectBalls pocketedNow).any (madeBall (List.lookup sh m))
  | _, _ => false

/-- The madeOpp accumulator of the turn loop (server.js lines 696-705):
some qualifying captured ball is not of the shooter's group. -/
def madeOppOf (assigned : Option (List (String × Group)))
    (shooter : Option String) (pocketedNow : List Ball) : Bool :=
  match assigned, shooter with
  | some m, some sh =>
    (objectBalls pocketedNow).any (fun pb => !madeBall (List.lookup sh m) pb)
  | _, _ => false

/-- Pocketed-event handling (server.js lines 666-715), entered when this
tick captured at least one ball: group assignment, the eight-ball checks,
the scratch foul, the turn decision from this tick's captures, and the
clearing of the shot bookkeeping. -/
def handlePocketedEvents (room : Room) (pocketedNow : List Ball) :
    Room × List OutMsg :=
  let shooter := shooterOf room
  let cuePocket := pocketedNow.any (fun p => p.num == 0)
  let asg := assignGroups room.players shooter room.assigned pocketedNow
  let room1 := { room with assigned := asg.1 }
  let msgs2 : List OutMsg :=
    if pocketedNow.any (fun p => p.num == 8) then
      match room1.assigned with
      | none =>
        [OutMsg.gameOver (opponentName room1.players shooter) "8 illegally pocketed"]
      | some m =>
        let shooterGroup := shooter.bind (fun sh => List.lookup sh m)
        let cleared :=
          (groupNums shooterGroup).all (fun n => room1.state.pocketed.contains n)
        if cleared && !cuePocket then
          [OutMsg.gameOver (shooterName room1.players shooter) "8 legally pocketed"]
        else
          [OutMsg.gameOver (opponentName room1.players shooter) "8 illegally pocketed"]
    else []
  let room2 := if cuePocket then { room1 with ballInHand := true } else room1
  let msgs3 : List OutMsg :=
    if cuePocket then [OutMsg.foul "cue-pocket" shooter] else []
  let madeOwn : Bool := madeOwnOf room1.assigned shooter pocketedNow
  let madeOpp : Bool := madeOppOf room1.assigned shooter pocketedNow
  let turn2 :=
    if !cuePocket then
      if !madeOwn || madeOpp then advanceTurn room.turnIndex room.players
      else room.turnIndex
    else advanceTurn room.turnIndex room.players
  ({ room2 with
      turnIndex := turn2
      shotInProgress := false
      pocketCountAtShot := room2.state.pocketed.length
      lastShooterId := none
      lastEvent := some (pocketedNow.map Ball.num) },
    asg.2 ++ msgs2 ++ msgs3)

/-- Room at rest (server.js lines 718 and 787): every ball's speed is below
the stop threshold, embedded squared. -/
def allStopped (balls : List Ball) : Bool :=
  balls.all (fun b => decide (hypotSq b.vx b.vy < STOP_THRESH ^ 2))

/-- Shot lifecycle (server.js lines 717-728): a shot in flight whose balls
are now at rest is finished, and when no capture happened since the shot
began the turn passes. -/
def shotLifecycle (room : Room) : Room :=
  if room.shotInProgress && allStopped room.state.balls then
    let pocketedNowTotal := room.state.pocketed.length - room.pocketCountAtShot
    { room with
      turnIndex := if pocketedNowTotal = 0
        then advanceTurn room.turnIndex room.players
        else room.turnIndex,
      shotInProgress := false,
      pocketCountAtShot := room.state.pocketed.length,
      lastShooterId := none }
  else room

/-- Broadcast throttle (server.js lines 730-735).  The source re-reads
Date.now() here; within one callback the stamp is modelled as the tick
time. -/
def broadcastPhase (now : Int) (room : Room) : Room × List OutMsg :=
  if (1000 : Int) / 20 ≤ now - room.lastBroadcast then
    ({ room with lastBroadcast := now, lastEvent := none }, [OutMsg.stateMsg])
  else (room, [])

/-- One tick of one room (server.js lines 617-735): refresh lastActive,
advance physics, detect pockets, truncate the pocketed list, handle the
pocketed events if any, run the shot lifecycle, and possibly broadcast. -/
def tickRoom (now : Int) (room0 : Room) : Room × List OutMsg :=
  let room := { room0 with lastActive := now }
  let balls1 := tickPhysics room.state.balls
  let pp := pocketPhase balls1
  let pocketed1 := capPocketed (room.state.pocketed ++ pp.2.map Ball.num)
  let room1 := { room with state := { balls := pp.1, pocketed := pocketed1 } }
  let ev := if pp.2.isEmpty then (room1, []) else handlePocketedEvents room1 pp.2
  let room2 := shotLifecycle ev.1
  let bc := broadcastPhase now room2
  (bc.1, ev.2 ++ bc.2)

/-- The global interval callback (server.js lines 615-743): tick every room
at the stamp now, then delete the rooms with zero seated players whose
lastActive is older than ROOM_IDLE_MS at the later stamp nowTime. -/
def tickRooms (now nowTime : Int) (rooms : List Room) :
    List Room × List OutMsg :=
  let ticked := rooms.map (tickRoom now)
  ((ticked.map Prod.fst).filter (fun r =>
      !(r.players.isEmpty && decide (ROOM_IDLE_MS < nowTime - r.lastActive))),
   ticked.flatMap Prod.snd)

/-- Shoot message fields (server.js line 795): the angle enters only
through Math.cos and Math.sin, whose evaluated values the embedding
carries; power is the raw optional m.power field. -/
structure ShootMsg where
  dirCos : ℚ
  dirSin : ℚ
  power : Option ℚ
deriving DecidableEq, Repr

/-- Replace the first ball satisfying the test, as mutating the result of
Array.prototype.find does. -/
def updateFirst (p : Ball → Bool) (f : Ball → Ball) : List Ball → List Ball
  | [] => []
  | b :: bs => if p b then f b :: bs else b :: updateFirst p f bs

/-- The shoot handler of the second variant (server.js lines 784-799),
given that the room was found.  The result is none when the seat lookup
room.players[room.turnIndex].id throws.  Note the shot bookkeeping
(lastShooterId, shotInProgress, pocketCountAtShot) is written before the
cue ball is looked up. -/
def handleShoot (room : Room) (senderId : String) (m : ShootMsg) :
    Option (Room × List OutMsg) :=
  match room.players[room.turnIndex]? with
  | none => none
  | some turnPlayer =>
    if turnPlayer.id ≠ senderId then
      some (room, [OutMsg.shootRejected "not-your-turn"])
    else if !allStopped room.state.balls then
      some (room, [OutMsg.shootRejected "balls-moving"])
    else if room.ballInHand then
      some (room, [OutMsg.shootRejected "ball-in-hand"])
    else
      let room1 := { room with
        lastShooterId := some senderId
        shotInProgress := true
        pocketCountAtShot := room.state.pocketed.length }
      if (room1.state.balls.find? (fun b => b.id == "cue")).isNone then
        some (room1, [OutMsg.shootRejected "no-cue"])
      else
        let balls := updateFirst (fun b => b.id == "cue")
          (fun b => { b with vx := m.dirCos * jsOr m.power 0 * SHOOT_SCALE,
                             vy := m.dirSin * jsOr m.power 0 * SHOOT_SCALE })
          room1.state.balls
        some ({ room1 with state := { room1.state with balls := balls } },
          [OutMsg.stateMsg])

/-- The place_cue handler of the second variant (server.js lines 801-812),
given that the room was found: requires ball-in-hand and the turn, clamps
the target into the table with a 5px margin, removes any cue and pushes a
fresh one at rest. -/
def handlePlaceCue (room : Room) (senderId : String) (mx my : Option ℚ) :
    Option (Room × List OutMsg) :=
  if !room.ballInHand then some (room, [OutMsg.placeRejected "not-ball-in-hand"])
  else
    match room.players[room.turnIndex]? with
    | none => none
    | some turnPlayer =>
      if turnPlayer.id ≠ senderId then
        some (room, [OutMsg.placeRejected "not-your-turn"])
      else
        let x := clamp (jsOr mx 150) (BALL_R + 5) (TABLE_W - BALL_R - 5)
        let y := clamp (jsOr my (TABLE_H / 2)) (BALL_R + 5) (TABLE_H - BALL_R - 5)
        let balls := room.state.balls.filter (fun b => b.id ≠ "cue") ++
          [{ id := "cue", num := 0, x := x, y := y, r := BALL_R,
             vx := 0, vy := 0, stripe := false }]
        some ({ room with
            state := { room.state with balls := balls }
            ballInHand := false },
          [OutMsg.stateMsg])

/-- The join handler of the second variant (server.js lines 773-782), given
that the room was found and the sender is not a host: a full room is
rejected with room-full, otherwise the player takes a seat. -/
def handleJoin (room : Room) (wsId name : String) : Room × List OutMsg :=
  if MAX_PLAYERS ≤ room.players.length then (room, [OutMsg.error "room-full"])
  else
    ({ room with players :=
        room.players ++ [{ id := wsId, name := jsOrS (some name) "Player" }] },
      [OutMsg.joined room.code wsId, OutMsg.stateMsg])

/-- The close handler of the second variant (server.js lines 826-833):
remove the closing connection from the seats (without touching turnIndex),
refresh lastActive, and tear the room down (none) when the closer is the
host. -/
def handleClose (room : Room) (wsId : String) (now : Int) :
    Option Room × List OutMsg :=
  let room1 := { room with
    players := room.players.filter (fun p => p.id ≠ wsId)
    lastActive := now }
  if room1.hostId = some wsId then (none, [OutMsg.error "host-left"])
  else if room1.players.isEmpty then (some room1, [])
  else (some room1, [OutMsg.stateMsg])

namespace V1

/-- Pocket radius of the first variant (server.js line 17). -/
def POCKET_RADIUS : ℚ := 24

/-- Stop threshold of the first variant (server.js line 21). -/
def STOP_THRESH : ℚ := 6 / 100

/-- Shot power scale of the first variant (server.js line 20). -/
def SHOOT_SCALE : ℚ := 14

/-- Collision resolver of the first variant (server.js lines 101-139): it
returns unchanged on coincident centres, on no overlap, and on separating
velocities (velAlongNormal > 0) before any positional correction; otherwise
it applies the elastic impulse and then the positional correction.  The
guards are embedded squared exactly as in the second variant. -/
def resolveBallCollision (a b : Ball) : Ball × Ball :=
  let dx := b.x - a.x
  let dy := b.y - a.y
  let d2 := hypotSq dx dy
  if d2 = 0 then (a, b)
  else
    let minDist := a.r + b.r
    if minDist ≤ 0 ∨ minDist ^ 2 ≤ d2 then (a, b)
    else
      let dist := ratSqrt d2
      let nx := dx / dist
      let ny := dy / dist
      let rvx := b.vx - a.vx
      let rvy := b.vy - a.vy
      let velAlongNormal := rvx * nx + rvy * ny
      if 0 < velAlongNormal then (a, b)
      else
        let j := -(1 + 1) * velAlongNormal / 2
        let ix := j * nx
        let iy := j * ny
        let a1 := { a with vx := a.vx - ix, vy := a.vy - iy }
        let b1 := { b with vx := b.vx + ix, vy := b.vy + iy }
        let overlap := minDist - dist
        let correction := overlap / 2 + 1 / 100
        ({ a1 with x := a1.x - nx * correction, y := a1.y - ny * correction },
         { b1 with x := b1.x + nx * correction, y := b1.y + ny * correction })

/-- Balls-stopped predicate of the first variant (server.js lines 150-153),
embedded squared. -/
def ballsStopped (room : Room) : Bool :=
  room.state.balls.all (fun b => decide (hypotSq b.vx b.vy < STOP_THRESH ^ 2))

/-- The shoot handler of the first variant (server.js lines 376-394): every
rule-violation rejection is a bare return with no reply at all.  The first
variant's room object lacks the shot-lifecycle fields; the handler touches
only the fields it has. -/
def handleShoot (room : Room) (senderId : String) (m : ShootMsg) :
    Option (Room × List OutMsg) :=
  match room.players[room.turnIndex]? with
  | none => none
  | some turnPlayer =>
    if turnPlayer.id ≠ senderId then some (room, [])
    else if !ballsStopped room then some (room, [])
    else if room.ballInHand then some (room, [])
    else
      let room1 := { room with lastShooterId := some senderId }
      if (room1.state.balls.find? (fun b => b.id == "cue")).isNone then
        some (room1, [])
      else
        let balls := updateFirst (fun b => b.id == "cue")
          (fun b => { b with vx := m.dirCos * jsOr m.power 0 * SHOOT_SCALE,
                             vy := m.dirSin * jsOr m.power 0 * SHOOT_SCALE })
          room1.state.balls
        some ({ room1 with state := { room1.state with balls := balls } },
          [OutMsg.stateMsg])

end V1

/-- Specification-side classification (the claim wording): a captured ball
number is in a group's own set when it lies in solids 1-7 or stripes 9-15;
with no assigned group nothing counts as own. -/
def specOwn : Option Group → Nat → Bool
  | some Group.solids, n => decide (1 ≤ n ∧ n ≤ 7)
  | some Group.stripes, n => decide (9 ≤ n ∧ n ≤ 15)
  | none, _ => false

/-- Specification-side opponent-group test, the complementary set. -/
def specOpp : Option Group → Nat → Bool
  | some Group.solids, n => decide (9 ≤ n ∧ n ≤ 15)
  | some Group.stripes, n => decide (1 ≤ n ∧ n ≤ 7)
  | none, _ => false

/-- Specification-side retention rule (the four-case wording): the shooter
retains the turn iff at least one own-group ball and no opponent-group
ball is among the non-cue non-eight captures of the resolution. -/
def specRetains (sg : Option Group) (captured : List Ball) : Bool :=
  ((objectBalls captured).any (fun pb => specOwn sg pb.num)) &&
  !((objectBalls captured).any (fun pb => specOpp sg pb.num))

/-- The shooter's group as seen by the turn rule: looked up after the
in-tick assignment phase (server.js line 698 reads room.assigned after the
lines 671-679 loop possibly set it). -/
def shooterGroupAfter (room : Room) (pocketedNow : List Ball) : Option Group :=
  match (assignGroups room.players (shooterOf room) room.assigned pocketedNow).1,
        shooterOf room with
  | some m, some sh => List.lookup sh m
  | _, _ => none

/-- Per-object-ball-number occupancy invariant: each object ball number
1..15 occurs at most once across the pocketed history and the live balls
together (so in particular at most once in pocketed). -/
def PocketInv (r : Room) : Prop :=
  ∀ n, n < 16 → 1 ≤ n →
    r.state.pocketed.count n + (r.state.balls.map Ball.num).count n ≤ 1

instance (r : Room) : Decidable (PocketInv r) := by
  unfold PocketInv
  infer_instance

/-- Concrete player A for the evaluated scenarios. -/
def pA : Player := { id := "idA", name := "Alice" }

/-- Concrete player B for the evaluated scenarios. -/
def pB : Player := { id := "idB", name := "Bob" }

/-- Concrete shoot message (angle 0, power 2). -/
def mEx : ShootMsg := { dirCos := 1, dirSin := 0, power := some 2 }

/-- Mid-shot scenario: ball 9 is about to drop into the corner pocket while
the cue ball is still crossing the table at speed 120 px/s. -/
def c1Room : Room :=
  { code := "QXZR", hostId := some "idA", hostName := "Alice",
    players := [pA, pB], turnIndex := 0,
    assigned := some [("idA", Group.solids), ("idB", Group.stripes)],
    state := {
      balls :=
        [{ id := "cue", num := 0, x := 400, y := 200, r := 10,
           vx := 120, vy := 0, stripe := false },
         { id := "b9", num := 9, x := 36, y := 20, r := 10,
           vx := -1200, vy := 0, stripe := true }]
      pocketed := [1] },
    ballInHand := false, lastShooterId := some "idA", lastEvent := none,
    lastBroadcast := 0, lastActive := 0, shotInProgress := true,
    pocketCountAtShot := 1 }

/-- Endgame scenario: every object ball but the eight is down, the shooter
has cleared solids, and the eight ball is dropping this tick. -/
def c2Room : Room :=
  { code := "KWPM", hostId := some "idA", hostName := "Alice",
    players := [pA, pB], turnIndex := 0,
    assigned := some [("idA", Group.solids), ("idB", Group.stripes)],
    state := {
      balls :=
        [{ id := "cue", num := 0, x := 400, y := 200, r := 10,
           vx := 0, vy := 0, stripe := false },
         { id := "b8", num := 8, x := 36, y := 20, r := 10,
           vx := -1200, vy := 0, stripe := false }]
      pocketed := [9, 1, 2, 10, 3, 4, 11, 5, 12, 6, 13, 7, 14, 15] },
    ballInHand := false, lastShooterId := some "idA", lastEvent := none,
    lastBroadcast := 0, lastActive := 0, shotInProgress := true,
    pocketCountAtShot := 14 }

/-- Ball-in-hand scenario after a scratch (history [9, 1, 0]): the
controlling player is about to replace the cue ball. -/
def c3Room : Room :=
  { code := "ZRTX", hostId := some "idA", hostName := "Alice",
    players := [pA, pB], turnIndex := 0,
    assigned := some [("idA", Group.solids), ("idB", Group.stripes)],
    state := {
      balls :=
        [{ id := "b8", num := 8, x := 600, y := 200, r := 10,
           vx := 0, vy := 0, stripe := false },
         { id := "b15", num := 15, x := 200, y := 100, r := 10,
           vx := 0, vy := 0, stripe := true }]
      pocketed := [9, 1, 0] },
    ballInHand := true, lastShooterId := none, lastEvent := none,
    lastBroadcast := 0, lastActive := 0, shotInProgress := false,
    pocketCountAtShot := 3 }

/-- Long-game scenario: 114 scratches plus the fourteen non-eight object
balls fill the stored history to the cap of 128, and the cue ball is
dropping once more this tick. -/
def c3RoomT : Room :=
  { code := "TRNC", hostId := some "idA", hostName := "Alice",
    players := [pA, pB], turnIndex := 0,
    assigned := some [("idA", Group.solids), ("idB", Group.stripes)],
    state := {
      balls :=
        [{ id := "cue", num := 0, x := 36, y := 20, r := 10,
           vx := -1200, vy := 0, stripe := false },
         { id := "b8", num := 8, x := 600, y := 200, r := 10,
           vx := 0, vy := 0, stripe := false }]
      pocketed := List.replicate 114 0 ++
        [1, 2, 3, 4, 5, 6, 7, 9, 10, 11, 12, 13, 14, 15] },
    ballInHand := false, lastShooterId := some "idA", lastEvent := none,
    lastBroadcast := 0, lastActive := 0, shotInProgress := true,
    pocketCountAtShot := 128 }

/-- Fresh two-seat room on the full rack, at rest, first player to move. -/
def c4Room : Room :=
  { code := "VWXY", hostId := some "idA", hostName := "Alice",
    players := [pA, pB], turnIndex := 0,
    assigned := none,
    state := { balls := makeRack, pocketed := [] },
    ballInHand := false, lastShooterId := none, lastEvent := none,
    lastBroadcast := 0, lastActive := 0, shotInProgress := false,
    pocketCountAtShot := 0 }

/-- Two-seat endgame room where it is the second seat's turn (turnIndex 1)
and that player is about to disconnect. -/
def c5Room : Room :=
  { code := "GONE", hostId := some "idA", hostName := "Alice",
    players := [pA, pB], turnIndex := 1,
    assigned := some [("idA", Group.solids), ("idB", Group.stripes)],
    state := {
      balls :=
        [{ id := "cue", num := 0, x := 400, y := 200, r := 10,
           vx := 0, vy := 0, stripe := false },
         { id := "b8", num := 8, x := 600, y := 200, r := 10,
           vx := 0, vy := 0, stripe := false }]
      pocketed := [9, 1, 2, 10, 3, 4, 11, 5, 12, 6, 13, 7, 14, 15] },
    ballInHand := false, lastShooterId := none, lastEvent := none,
    lastBroadcast := 0, lastActive := 0, shotInProgress := false,
    pocketCountAtShot := 14 }

/-- Overlapping pair moving apart: centres 12 apart (overlap 8), relative
velocity along the normal strictly positive. -/
def c7A : Ball :=
  { id := "b1", num := 1, x := 0, y := 0, r := 10, vx := -5, vy := 0,
    stripe := false }

/-- Second ball of the separating overlapping pair. -/
def c7B : Ball :=
  { id := "b2", num := 2, x := 12, y := 0, r := 10, vx := 5, vy := 0,
    stripe := false }

/-- Coincident pair: both centres at (50, 50). -/
def c8A : Ball :=
  { id := "b3", num := 3, x := 50, y := 50, r := 10, vx := 3, vy := 0,
    stripe := false }

/-- Second ball of the coincident pair. -/
def c8B : Ball :=
  { id := "b4", num := 4, x := 50, y := 50, r := 10, vx := -2, vy := 0,
    stripe := false }

/-- A captured stripe ball, as handed to the event block by the pocket
detector. -/
def c1CapB : Ball :=
  { id := "b9", num := 9, x := 16, y := 20, r := 10, vx := -1191 - 6 / 10,
    vy := 0, stripe := true }

/-- A captured solid ball (number 3), as the first legal capture of an
unassigned room. -/
def c6Cap : Ball :=
  { id := "b3", num := 3, x := 20, y := 14, r := 10, vx := 0, vy := 0,
    stripe := false }

/-- Room with zero seated players (its last occupant just disconnected),
mid-rack, used to exercise the idle cleanup. -/
def c9Room : Room :=
  { code := "IDLE", hostId := some "idA", hostName := "Alice",
    players := [], turnIndex := 0,
    assigned := none,
    state := { balls := makeRack, pocketed := [] },
    ballInHand := false, lastShooterId := none, lastEvent := none,
    lastBroadcast := 0, lastActive := 0, shotInProgress := false,
    pocketCountAtShot := 0 }

/-- A JS number: a rational or the IEEE NaN.  Infinities never arise in the
embedded paths (the only divisions are by a collision distance that is nan
or a nonzero rational). -/
inductive JNum where
  | num : ℚ → JNum
  | nan : JNum
deriving DecidableEq, Repr

/-- NaN-propagating addition. -/
def JNum.add : JNum → JNum → JNum
  | .num a, .num b => .num (a + b)
  | _, _ => .nan

/-- NaN-propagating subtraction. -/
def JNum.sub : JNum → JNum → JNum
  | .num a, .num b => .num (a - b)
  | _, _ => .nan

/-- NaN-propagating multiplication. -/
def JNum.mul : JNum → JNum → JNum
  | .num a, .num b => .num (a * b)
  | _, _ => .nan

/-- NaN-propagating negation. -/
def JNum.neg : JNum → JNum
  | .num a => .num (-a)
  | .nan => .nan

/-- NaN-propagating division.  In the embedded paths the denominator is
never a rational zero (the resolver jitters a zero distance to 1/1000
before dividing), so that case is mapped to nan as an unused default. -/
def JNum.div : JNum → JNum → JNum
  | .num a, .num b => if b = 0 then .nan else .num (a / b)
  | _, _ => .nan

/-- The comparison x ≤ y: false when either side is NaN. -/
def JNum.le : JNum → JNum → Bool
  | .num a, .num b => decide (a ≤ b)
  | _, _ => false

/-- The comparison x < y: false when either side is NaN. -/
def JNum.lt : JNum → JNum → Bool
  | .num a, .num b => decide (a < b)
  | _, _ => false

/-- The JS coercion (v || 0): NaN is falsy, so it yields the rational 0; a
rational passes through (0 yields the default 0, itself). -/
def JNum.orZero : JNum → ℚ
  | .num a => a
  | .nan => 0

/-- Math.hypot as a value: nan on a nan component, else ratSqrt of the
squared length (exact on perfect squares, as in the rational embedding;
never evaluated on a non-square in this file). -/
def JNum.hypot : JNum → JNum → JNum
  | .num a, .num b => .num (ratSqrt (a ^ 2 + b ^ 2))
  | _, _ => .nan

/-- The test Math.hypot x y === 0: false on a nan component (NaN === 0 is
false); a nonnegative real square root is zero exactly when the squared
length is. -/
def JNum.hypotEqZero : JNum → JNum → Bool
  | .num a, .num b => decide (a ^ 2 + b ^ 2 = 0)
  | _, _ => false

/-- The test c ≤ Math.hypot x y: false on a nan component, else the exact
squared comparison (covering a nonpositive bound). -/
def JNum.hypotGe (c : ℚ) : JNum → JNum → Bool
  | .num a, .num b => decide (c ≤ 0 ∨ c ^ 2 ≤ a ^ 2 + b ^ 2)
  | _, _ => false

/-- The test Math.hypot x y ≤ c for a nonnegative bound c: false on a nan
component, else the exact squared comparison. -/
def JNum.hypotLe (c : ℚ) : JNum → JNum → Bool
  | .num a, .num b => decide (a ^ 2 + b ^ 2 ≤ c ^ 2)
  | _, _ => false

/-- The test Math.hypot x y < c for a positive bound c: false on a nan
component, else the exact squared comparison. -/
def JNum.hypotLt (c : ℚ) : JNum → JNum → Bool
  | .num a, .num b => decide (a ^ 2 + b ^ 2 < c ^ 2)
  | _, _ => false

/-- The test 0 < Math.hypot x y: false on a nan component, else positivity
of the squared length. -/
def JNum.hypotPos : JNum → JNum → Bool
  | .num a, .num b => decide (0 < a ^ 2 + b ^ 2)
  | _, _ => false

namespace JS

/-- A ball of the second variant with JS-number coordinates and
velocities.  The radius field is only ever assigned the constant BALL_R and
stays rational. -/
structure Ball where
  id : String
  num : Nat
  x : JNum
  y : JNum
  r : ℚ
  vx : JNum
  vy : JNum
  stripe : Bool
deriving DecidableEq, Repr

/-- Room simulation state over JS-number balls. -/
structure RoomState where
  balls : List Ball
  pocketed : List Nat
deriving DecidableEq, Repr

/-- A room of the second variant over JS-number balls (the same fields as
the rational Room). -/
structure Room where
  code : String
  hostId : Option String
  hostName : String
  players : List Player
  turnIndex : Nat
  assigned : Option (List (String × Group))
  state : RoomState
  ballInHand : Bool
  lastShooterId : Option String
  lastEvent : Option (List Nat)
  lastBroadcast : Int
  lastActive : Int
  shotInProgress : Bool
  pocketCountAtShot : Nat
deriving DecidableEq, Repr

/-- Collision resolver (server.js lines 508-545) over JS numbers.  The
dist === 0 and dist >= minDist guards are false whenever a coordinate is
nan, so a pair with a nan member falls through to the positional
correction, whose arithmetic turns both positions nan; the rel >= 0 early
return is likewise false on a nan relative velocity, so the impulse is
applied and turns both velocities nan. -/
def resolveBallCollision (a b : Ball) : Ball × Ball :=
  let dx0 := b.x.sub a.x
  let dy0 := b.y.sub a.y
  let zero := JNum.hypotEqZero dx0 dy0
  let dx := if zero then JNum.num (1 / 1000) else dx0
  let dy := if zero then JNum.num 0 else dy0
  let minDist := a.r + b.r
  if (if zero then decide (minDist ≤ 1 / 1000)
      else JNum.hypotGe minDist dx0 dy0) then (a, b)
  else
    let dist := if zero then JNum.num (1 / 1000) else JNum.hypot dx0 dy0
    let nx := dx.div dist
    let ny := dy.div dist
    let overlap := (JNum.num minDist).sub dist
    let correction := (overlap.div (JNum.num 2)).add (JNum.num (1 / 1000))
    let a1 := { a with x := a.x.sub (nx.mul correction),
                       y := a.y.sub (ny.mul correction) }
    let b1 := { b with x := b.x.add (nx.mul correction),
                       y := b.y.add (ny.mul correction) }
    let rvx := b1.vx.sub a1.vx
    let rvy := b1.vy.sub a1.vy
    let rel := (rvx.mul nx).add (rvy.mul ny)
    if (JNum.num 0).le rel then (a1, b1)
    else
      let e : ℚ := 98 / 100
      let j := ((JNum.num (-(1 + e))).mul rel).div (JNum.num 2)
      let ix := j.mul nx
      let iy := j.mul ny
      ({ a1 with vx := a1.vx.sub ix, vy := a1.vy.sub iy },
       { b1 with vx := b1.vx.add ix, vy := b1.vy.add iy })

/-- The near-pocket projection test
proj > 0.4 * vecLen(vx,vy) * d / (POCKET_RADIUS + 1) (server.js line 553):
false whenever any operand is nan (one side evaluates to NaN and the
comparison fails), else the exact squared comparison of the rational
embedding. -/
def projTest : JNum → JNum → JNum → JNum → Bool
  | .num vx, .num vy, .num dx, .num dy =>
    let proj := vx * dx + vy * dy
    decide (0 < proj ∧
      (4 / 10 : ℚ) ^ 2 * hypotSq vx vy * hypotSq dx dy
        < proj ^ 2 * (POCKET_RADIUS + 1) ^ 2)
  | _, _, _, _ => false

/-- Pocket test (server.js lines 547-558) over JS numbers: both distance
comparisons and the projection test are false whenever a nan enters them,
so a ball at a nan position is never captured. -/
def ballShouldPocket (ball : Ball) : Bool :=
  POCKETS.any (fun p =>
    let dx := (JNum.num p.1).sub ball.x
    let dy := (JNum.num p.2).sub ball.y
    if JNum.hypotLe POCKET_RADIUS dx dy then true
    else if JNum.hypotLe (POCKET_RADIUS + POCKET_NEAR_MARGIN) dx dy then
      projTest ball.vx ball.vy dx dy
    else false)

/-- Sub-step integration and wall bounce (server.js lines 627-635) over JS
numbers: every bounds comparison is false on a nan coordinate, so a nan
ball is neither clamped nor reflected. -/
def integrateBall (b : Ball) : Ball :=
  let x := b.x.add (b.vx.mul (JNum.num dtSub))
  let y := b.y.add (b.vy.mul (JNum.num dtSub))
  let px : JNum × JNum :=
    if (x.sub (JNum.num b.r)).lt (JNum.num 0)
    then (JNum.num b.r, (b.vx.neg).mul (JNum.num (98 / 100))) else (x, b.vx)
  let px2 : JNum × JNum :=
    if (JNum.num TABLE_W).lt (px.1.add (JNum.num b.r))
    then (JNum.num (TABLE_W - b.r), (px.2.neg).mul (JNum.num (98 / 100)))
    else px
  let py : JNum × JNum :=
    if (y.sub (JNum.num b.r)).lt (JNum.num 0)
    then (JNum.num b.r, (b.vy.neg).mul (JNum.num (98 / 100))) else (y, b.vy)
  let py2 : JNum × JNum :=
    if (JNum.num TABLE_H).lt (py.1.add (JNum.num b.r))
    then (JNum.num (TABLE_H - b.r), (py.2.neg).mul (JNum.num (98 / 100)))
    else py
  { b with x := px2.1, vx := px2.2, y := py2.1, vy := py2.2 }

/-- All-pairs in-place collision resolution (server.js lines 639-641). -/
def collideAll (balls : List Ball) : List Ball :=
  ((List.range balls.length).foldl (fun arr i =>
    (List.range arr.size).foldl (fun arr j =>
      if i < j then
        match arr[i]?, arr[j]? with
        | some a, some b =>
          let ab := resolveBallCollision a b
          (arr.setD i ab.1).setD j ab.2
        | _, _ => arr
      else arr) arr) balls.toArray).toList

/-- One physics sub-step (server.js lines 626-642). -/
def substep (balls : List Ball) : List Ball :=
  collideAll (balls.map integrateBall)

/-- Per-tick friction, slow-speed damping and stop snap (server.js lines
645-651) over JS numbers: a nan speed fails both the slow-speed window and
the stop comparison, so nan velocity components are merely multiplied by
the friction factor and stay nan. -/
def applyFriction (b : Ball) : Ball :=
  let vx := b.vx.mul (JNum.num GLOBAL_FRICTION)
  let vy := b.vy.mul (JNum.num GLOBAL_FRICTION)
  let v1 : JNum × JNum :=
    if JNum.hypotPos vx vy && JNum.hypotLt SLOW_SPEED vx vy
    then (vx.mul (JNum.num LOW_SPEED_FRICTION),
          vy.mul (JNum.num LOW_SPEED_FRICTION))
    else (vx, vy)
  let v2 : JNum × JNum :=
    if JNum.hypotLt STOP_THRESH v1.1 v1.2 then (JNum.num 0, JNum.num 0) else v1
  { b with vx := v2.1, vy := v2.2 }

/-- The physics of one full tick (server.js lines 620-651). -/
def tickPhysics (balls : List Ball) : List Ball :=
  (substep (substep balls)).map applyFriction

/-- Pocket detection (server.js lines 653-662): remaining balls in order,
captured balls in reverse position order. -/
def pocketPhase (balls : List Ball) : List Ball × List Ball :=
  (balls.filter (fun b => !ballShouldPocket b),
   (balls.filter ballShouldPocket).reverse)

/-- Room at rest (server.js lines 718 and 787): each velocity component is
first coerced by || 0 — which sends nan to 0 — and only then enters the
speed comparison, so a ball with nan velocity components counts as
stopped. -/
def allStopped (balls : List Ball) : Bool :=
  balls.all (fun b => decide (hypotSq b.vx.orZero b.vy.orZero < STOP_THRESH ^ 2))

/-- Shooter determination (server.js line 667), as in the rational
embedding. -/
def shooterOf (room : Room) : Option String :=
  match room.lastShooterId with
  | some s => some s
  | none =>
    (room.players[(room.turnIndex + room.players.length - 1) %
      max 1 room.players.length]?).map Player.id

/-- One iteration of the assignment loop (server.js lines 671-679), which
reads only the captured ball's number. -/
def assignStep (players : List Player) (shooter : Option String)
    (acc : Option (List (String × Group)) × List OutMsg) (pb : Ball) :
    Option (List (String × Group)) × List OutMsg :=
  if pb.num = 0 ∨ pb.num = 8 then acc
  else
    match acc.1, shooter with
    | none, some sh =>
      let solids : Bool := decide (1 ≤ pb.num ∧ pb.num ≤ 7)
      let asg := players.map (fun pl =>
        (pl.id,
          if pl.id = sh then (if solids then Group.solids else Group.stripes)
          else (if solids then Group.stripes else Group.solids)))
      (some asg, acc.2 ++ [OutMsg.assignedMsg sh (List.lookup sh asg)])
    | _, _ => acc

/-- The assignment loop over this tick's captures (server.js lines
671-679). -/
def assignGroups (players : List Player) (shooter : Option String)
    (assigned : Option (List (String × Group))) (pocketedNow : List Ball) :
    Option (List (String × Group)) × List OutMsg :=
  pocketedNow.foldl (assignStep players shooter) (assigned, [])

/-- Own-group test of a captured ball (server.js lines 701-702). -/
def madeBall (sg : Option Group) (pb : Ball) : Bool :=
  decide ((sg = some Group.solids ∧ 1 ≤ pb.num ∧ pb.num ≤ 7) ∨
          (sg = some Group.stripes ∧ ¬(1 ≤ pb.num ∧ pb.num ≤ 7)))

/-- Captured balls that count for the turn rule (server.js line 700). -/
def objectBalls (pocketedNow : List Ball) : List Ball :=
  pocketedNow.filter (fun pb => decide (¬(pb.num ≤ 0 ∨ pb.num = 8)))

/-- The madeOwn accumulator of the turn loop (server.js lines 696-705). -/
def madeOwnOf (assigned : Option (List (String × Group)))
    (shooter : Option String) (pocketedNow : List Ball) : Bool :=
  match assigned, shooter with
  | some m, some sh => (objectBalls pocketedNow).any (madeBall (List.lookup sh m))
  | _, _ => false

/-- The madeOpp accumulator of the turn loop (server.js lines 696-705). -/
def madeOppOf (assigned : Option (List (String × Group)))
    (shooter : Option String) (pocketedNow : List Ball) : Bool :=
  match assigned, shooter with
  | some m, some sh =>
    (objectBalls pocketedNow).any (fun pb => !madeBall (List.lookup sh m) pb)
  | _, _ => false

/-- Pocketed-event handling (server.js lines 666-715) over JS-number
balls; the block reads only the room bookkeeping and the captured balls'
numbers. -/
def handlePocketedEvents (room : Room) (pocketedNow : List Ball) :
    Room × List OutMsg :=
  let shooter := shooterOf room
  let cuePocket := pocketedNow.any (fun p => p.num == 0)
  let asg := assignGroups room.players shooter room.assigned pocketedNow
  let room1 := { room with assigned := asg.1 }
  let msgs2 : List OutMsg :=
    if pocketedNow.any (fun p => p.num == 8) then
      match room1.assigned with
      | none =>
        [OutMsg.gameOver (opponentName room1.players shooter) "8 illegally pocketed"]
      | some m =>
        let shooterGroup := shooter.bind (fun sh => List.lookup sh m)
        let cleared :=
          (groupNums shooterGroup).all (fun n => room1.state.pocketed.contains n)
        if cleared && !cuePocket then
          [OutMsg.gameOver (shooterName room1.players shooter) "8 legally pocketed"]
        else
          [OutMsg.gameOver (opponentName room1.players shooter) "8 illegally pocketed"]
    else []
  let room2 := if cuePocket then { room1 with ballInHand := true } else room1
  let msgs3 : List OutMsg :=
    if cuePocket then [OutMsg.foul "cue-pocket" shooter] else []
  let madeOwn : Bool := madeOwnOf room1.assigned shooter pocketedNow
  let madeOpp : Bool := madeOppOf room1.assigned shooter pocketedNow
  let turn2 :=
    if !cuePocket then
      if !madeOwn || madeOpp then advanceTurn room.turnIndex room.players
      else room.turnIndex
    else advanceTurn room.turnIndex room.players
  ({ room2 with
      turnIndex := turn2
      shotInProgress := false
      pocketCountAtShot := room2.state.pocketed.length
      lastShooterId := none
      lastEvent := some (pocketedNow.map Ball.num) },
    asg.2 ++ msgs2 ++ msgs3)

/-- Shot lifecycle (server.js lines 717-728), with the coerced at-rest
test. -/
def shotLifecycle (room : Room) : Room :=
  if room.shotInProgress && allStopped room.state.balls then
    let pocketedNowTotal := room.state.pocketed.length - room.pocketCountAtShot
    { room with
      turnIndex := if pocketedNowTotal = 0
        then advanceTurn room.turnIndex room.players
        else room.turnIndex,
      shotInProgress := false,
      pocketCountAtShot := room.state.pocketed.length,
      lastShooterId := none }
  else room

/-- Broadcast throttle (server.js lines 730-735). -/
def broadcastPhase (now : Int) (room : Room) : Room × List OutMsg :=
  if (1000 : Int) / 20 ≤ now - room.lastBroadcast then
    ({ room with lastBroadcast := now, lastEvent := none }, [OutMsg.stateMsg])
  else (room, [])

/-- One tick of one room (server.js lines 617-735) over JS numbers. -/
def tickRoom (now : Int) (room0 : Room) : Room × List OutMsg :=
  let room := { room0 with lastActive := now }
  let balls1 := tickPhysics room.state.balls
  let pp := pocketPhase balls1
  let pocketed1 := capPocketed (room.state.pocketed ++ pp.2.map Ball.num)
  let room1 := { room with state := { balls := pp.1, pocketed := pocketed1 } }
  let ev := if pp.2.isEmpty then (room1, []) else handlePocketedEvents room1 pp.2
  let room2 := shotLifecycle ev.1
  let bc := broadcastPhase now room2
  (bc.1, ev.2 ++ bc.2)

/-- Shoot message fields over JS numbers: dirCos and dirSin are the
evaluated Math.cos(m.angle) and Math.sin(m.angle), which are NaN exactly
when the angle field is missing or not a number (Math.cos(undefined) is
NaN); power is the raw optional m.power field. -/
structure ShootMsg where
  dirCos : JNum
  dirSin : JNum
  power : Option ℚ
deriving DecidableEq, Repr

/-- The cue velocity assignment of the shoot handler (server.js lines
795-796): Math.cos(m.angle) * (m.power || 0) * SHOOT_SCALE, nan whenever
the direction component is nan. -/
def shootBall (m : ShootMsg) (b : Ball) : Ball :=
  { b with
    vx := (m.dirCos.mul (JNum.num (jsOr m.power 0))).mul (JNum.num SHOOT_SCALE),
    vy := (m.dirSin.mul (JNum.num (jsOr m.power 0))).mul (JNum.num SHOOT_SCALE) }

/-- Replace the first ball satisfying the test, as mutating the result of
Array.prototype.find does. -/
def updateFirst (p : Ball → Bool) (f : Ball → Ball) : List Ball → List Ball
  | [] => []
  | b :: bs => if p b then f b :: bs else b :: updateFirst p f bs

/-- The shoot handler (server.js lines 784-799) over JS numbers: the
balls-moving check coerces each velocity component by || 0 before the
speed comparison, so nan velocities do not block acceptance. -/
def handleShoot (room : Room) (senderId : String) (m : ShootMsg) :
    Option (Room × List OutMsg) :=
  match room.players[room.turnIndex]? with
  | none => none
  | some turnPlayer =>
    if turnPlayer.id ≠ senderId then
      some (room, [OutMsg.shootRejected "not-your-turn"])
    else if !allStopped room.state.balls then
      some (room, [OutMsg.shootRejected "balls-moving"])
    else if room.ballInHand then
      some (room, [OutMsg.shootRejected "ball-in-hand"])
    else
      let room1 := { room with
        lastShooterId := some senderId
        shotInProgress := true
        pocketCountAtShot := room.state.pocketed.length }
      if (room1.state.balls.find? (fun b => b.id == "cue")).isNone then
        some (room1, [OutMsg.shootRejected "no-cue"])
      else
        let balls := updateFirst (fun b => b.id == "cue") (shootBall m)
          room1.state.balls
        some ({ room1 with state := { room1.state with balls := balls } },
          [OutMsg.stateMsg])

end JS

/-- Shoot message with a missing angle field: Math.cos(undefined) and
Math.sin(undefined) are NaN. -/
def c10Msg : JS.ShootMsg :=
  { dirCos := JNum.nan, dirSin := JNum.nan, power := some 2 }

/-- Ordinary follow-up shoot message (angle 0, power 2) over JS numbers. -/
def c10MsgB : JS.ShootMsg :=
  { dirCos := JNum.num 1, dirSin := JNum.num 0, power := some 2 }

/-- Two-seat endgame room at rest (cue and eight ball left) over JS
numbers, first seat to move: the sender is about to shoot with a missing
angle. -/
def c10Room : JS.Room :=
  { code := "NANQ", hostId := some "idA", hostName := "Alice",
    players := [pA, pB], turnIndex := 0,
    assigned := some [("idA", Group.solids), ("idB", Group.stripes)],
    state := {
      balls :=
        [{ id := "cue", num := 0, x := JNum.num 400, y := JNum.num 200,
           r := 10, vx := JNum.num 0, vy := JNum.num 0, stripe := false },
         { id := "b8", num := 8, x := JNum.num 600, y := JNum.num 200,
           r := 10, vx := JNum.num 0, vy := JNum.num 0, stripe := false }]
      pocketed := [9, 1, 2, 10, 3, 4, 11, 5, 12, 6, 13, 7, 14, 15] },
    ballInHand := false, lastShooterId := none, lastEvent := none,
    lastBroadcast := 0, lastActive := 0, shotInProgress := false,
    pocketCountAtShot := 14 }

/-- The room after the missing-angle shoot is accepted. -/
def c10AfterShoot : JS.Room :=
  ((JS.handleShoot c10Room "idA" c10Msg).getD (c10Room, [])).1

/-- The room after the tick following the missing-angle shoot. -/
def c10AfterTick : JS.Room := (JS.tickRoom 1000 c10AfterShoot).1

/-- A ball whose velocity components are both nan. -/
def c10NanBall : JS.Ball :=
  { id := "cue", num := 0, x := JNum.nan, y := JNum.nan, r := 10,
    vx := JNum.nan, vy := JNum.nan, stripe := false }

end Pool

namespace Pool

attribute [local semireducible] Rat.add Rat.mul Rat.sub Rat.inv

set_option maxRecDepth 8000

/-- Helper: for every overlapping pair, the second variant's output
positions are the inputs displaced by the computed correction along the
computed normal, with no hypothesis on the velocities. -/
theorem resolve_positions (a b : Ball)
    (hr : 1 / 1000 < a.r + b.r)
    (hov : hypotSq (b.x - a.x) (b.y - a.y) < (a.r + b.r) ^ 2) :
    (resolveBallCollision a b).1.x
        = a.x - (collisionCorrection a b).2.1 * (collisionCorrection a b).1 ∧
    (resolveBallCollision a b).1.y
        = a.y - (collisionCorrection a b).2.2 * (collisionCorrection a b).1 ∧
    (resolveBallCollision a b).2.x
        = b.x + (collisionCorrection a b).2.1 * (collisionCorrection a b).1 ∧
    (resolveBallCollision a b).2.y
        = b.y + (collisionCorrection a b).2.2 * (collisionCorrection a b).1 := by
  have hguard : ¬ (if hypotSq (b.x - a.x) (b.y - a.y) = 0 then a.r + b.r ≤ 1 / 1000
      else a.r + b.r ≤ 0 ∨ (a.r + b.r) ^ 2 ≤ hypotSq (b.x - a.x) (b.y - a.y)) := by
    split_ifs with hz
    · exact not_le.mpr hr
    · push_neg
      exact ⟨by linarith, by linarith⟩
  simp only [resolveBallCollision, collisionCorrection]
  rw [if_neg hguard]
  split_ifs with h1 h2 <;> exact ⟨rfl, rfl, rfl, rfl⟩

/-- Claim C7, amended theorem. -/
theorem c7_amended (a b : Ball)
    (hr : 1 / 1000 < a.r + b.r)
    (hov : hypotSq (b.x - a.x) (b.y - a.y) < (a.r + b.r) ^ 2) :
    (resolveBallCollision a b).1.x
        = a.x - (collisionCorrection a b).2.1 * (collisionCorrection a b).1 ∧
    (resolveBallCollision a b).1.y
        = a.y - (collisionCorrection a b).2.2 * (collisionCorrection a b).1 ∧
    (resolveBallCollision a b).2.x
        = b.x + (collisionCorrection a b).2.1 * (collisionCorrection a b).1 ∧
    (resolveBallCollision a b).2.y
        = b.y + (collisionCorrection a b).2.2 * (collisionCorrection a b).1 :=
  resolve_positions a b hr hov

/-- Witness for the amended C7 theorem. -/
theorem c7_amended_witness :
    ((1 : ℚ) / 1000 < c7A.r + c7B.r ∧
     hypotSq (c7B.x - c7A.x) (c7B.y - c7A.y) < (c7A.r + c7B.r) ^ 2) ∧
    (resolveBallCollision c7A c7B).1.x = -(4001 / 1000) ∧
    (resolveBallCollision c7A c7B).2.x = 16001 / 1000 := by
  obtain ⟨h1, h2, h3, h4⟩ := c7_amended c7A c7B (by decide) (by decide)
  refine ⟨⟨by decide, by decide⟩, ?_, ?_⟩
  · rw [h1]; decide
  · rw [h3]; decide

/-- Claim C7, counterexample. -/
theorem c7_counter :
    V1.resolveBallCollision c7A c7B = (c7A, c7B) ∧
    hypotSq (c7B.x - c7A.x) (c7B.y - c7A.y) < (c7A.r + c7B.r) ^ 2 := by
  decide

/-- Claim C8, counterexample. -/
theorem c8_counter :
    V1.resolveBallCollision c8A c8B = (c8A, c8B) ∧
    c8A.x = c8B.x ∧ c8A.y = c8B.y := by
  decide

/-- Claim C8, amended theorem. -/
theorem c8_amended (a b : Ball)
    (hx : a.x = b.x) (hy : a.y = b.y) (hr : 1 / 1000 < a.r + b.r) :
    (resolveBallCollision a b).2.x - (resolveBallCollision a b).1.x
      = a.r + b.r + 1 / 1000 ∧
    (resolveBallCollision a b).1.y = a.y ∧
    (resolveBallCollision a b).2.y = b.y ∧
    (a.r + b.r) ^ 2 <
      hypotSq ((resolveBallCollision a b).2.x - (resolveBallCollision a b).1.x)
        ((resolveBallCollision a b).2.y - (resolveBallCollision a b).1.y) := by
  have hz : hypotSq (b.x - a.x) (b.y - a.y) = 0 := by
    rw [hx, hy]; simp [hypotSq]
  have hov : hypotSq (b.x - a.x) (b.y - a.y) < (a.r + b.r) ^ 2 := by
    rw [hz]; nlinarith [hr]
  have hcc : collisionCorrection a b
      = ((a.r + b.r - 1 / 1000) / 2 + 1 / 1000, 1, 0) := by
    simp only [collisionCorrection, hz, ite_true, eq_self_iff_true, if_true]
    rw [div_self (by norm_num : ((1 : ℚ) / 1000) ≠ 0), zero_div]
  obtain ⟨k1, k2, k3, k4⟩ := resolve_positions a b (by linarith) hov
  rw [hcc] at k1 k2 k3 k4
  simp only at k1 k2 k3 k4
  refine ⟨?_, ?_, ?_, ?_⟩
  · rw [k1, k3, hx]; ring
  · rw [k2]; ring
  · rw [k4]; ring
  · rw [k1, k2, k3, k4, hx, hy]
    simp only [hypotSq]
    nlinarith [hr]

/-- Witness for the amended C8 theorem. -/
theorem c8_amended_witness :
    (c8A.x = c8B.x ∧ c8A.y = c8B.y ∧ (1 : ℚ) / 1000 < c8A.r + c8B.r) ∧
    (resolveBallCollision c8A c8B).2.x - (resolveBallCollision c8A c8B).1.x
      = c8A.r + c8B.r + 1 / 1000 := by
  refine ⟨⟨by decide, by decide, by decide⟩, ?_⟩
  exact (c8_amended c8A c8B (by decide) (by decide) (by decide)).1


/-- Claim C4, counterexample: the first variant rejects a wrong-turn shoot
silently, with no reply naming a reason. -/
theorem c4_counter :
    V1.handleShoot c4Room "idB" mEx = some (c4Room, []) ∧
    (c4Room.players[c4Room.turnIndex]?).map Player.id ≠ some "idB" := by
  decide

/-- Claim C4, amended theorem. -/
theorem c4_amended (room : Room) (sender : String) (m : ShootMsg) (tp : Player)
    (hget : room.players[room.turnIndex]? = some tp) :
    (tp.id ≠ sender →
      handleShoot room sender m
        = some (room, [OutMsg.shootRejected "not-your-turn"]) ∧
      V1.handleShoot room sender m = some (room, [])) ∧
    (tp.id = sender → allStopped room.state.balls = false →
      handleShoot room sender m
        = some (room, [OutMsg.shootRejected "balls-moving"])) ∧
    (tp.id = sender → allStopped room.state.balls = true →
      room.ballInHand = true →
      handleShoot room sender m
        = some (room, [OutMsg.shootRejected "ball-in-hand"])) ∧
    (tp.id = sender → allStopped room.state.balls = true →
      room.ballInHand = false →
      (room.state.balls.find? (fun b => b.id == "cue")).isNone = true →
      handleShoot room sender m =
        some ({ room with
            lastShooterId := some sender
            shotInProgress := true
            pocketCountAtShot := room.state.pocketed.length },
          [OutMsg.shootRejected "no-cue"])) := by
  refine ⟨?_, ?_, ?_, ?_⟩
  · intro h
    constructor
    · simp [handleShoot, hget, h]
    · simp [V1.handleShoot, hget, h]
  · intro h hstop
    simp [handleShoot, hget, h, hstop]
  · intro h hstop hbih
    simp [handleShoot, hget, h, hstop, hbih]
  · intro h hstop hbih hcue
    simp [handleShoot, hget, h, hstop, hbih, hcue]

/-- Witness for the amended C4 theorem. -/
theorem c4_amended_witness :
    handleShoot c4Room "idB" mEx
      = some (c4Room, [OutMsg.shootRejected "not-your-turn"]) ∧
    V1.handleShoot c4Room "idB" mEx = some (c4Room, []) :=
  (c4_amended c4Room "idB" mEx pA (by decide)).1 (by decide)

/-- Claim C5, counterexample. -/
theorem c5_counter :
    ((handleClose c5Room "idB" 5).1.map (fun r => r.players.length) = some 1) ∧
    ((handleClose c5Room "idB" 5).1.map
      (fun r => decide (r.turnIndex < r.players.length)) = some false) := by
  decide

/-- Claim C5, amended theorem. -/
theorem c5_amended (room : Room) (wsId : String) (now : Int) :
    ((handleClose room wsId now).1
      = if room.hostId = some wsId then none
        else some { room with
                    players := room.players.filter (fun p => p.id ≠ wsId)
                    lastActive := now }) ∧
    (∀ r2, (handleClose room wsId now).1 = some r2 →
      r2.turnIndex = room.turnIndex) ∧
    (∀ (r : Room) (s : String) (m : ShootMsg),
      r.players[r.turnIndex]? = none → handleShoot r s m = none) ∧
    (∀ (t : Nat) (ps : List Player), ps ≠ [] → advanceTurn t ps < ps.length) := by
  have key : (handleClose room wsId now).1
      = if room.hostId = some wsId then none
        else some { room with
                    players := room.players.filter (fun p => p.id ≠ wsId)
                    lastActive := now } := by
    simp only [handleClose]
    split_ifs <;> rfl
  refine ⟨key, ?_, ?_, ?_⟩
  · intro r2 h
    rw [key] at h
    split_ifs at h
    rw [Option.some.injEq] at h
    subst h
    rfl
  · intro r s m h
    simp [handleShoot, h]
  · intro t ps hps
    have hlen : 0 < ps.length := List.length_pos.mpr hps
    simp only [advanceTurn]
    rw [Nat.max_eq_right hlen]
    exact Nat.mod_lt _ hlen

/-- Witness for the amended C5 theorem. -/
theorem c5_amended_witness :
    (handleClose c5Room "idB" 5).1
      = some { c5Room with players := [pA], lastActive := 5 } ∧
    advanceTurn 1 [pA] < [pA].length := by
  have h := c5_amended c5Room "idB" 5
  refine ⟨?_, h.2.2.2 1 [pA] (by decide)⟩
  rw [h.1]
  decide

/-- Claim C2, counterexample. -/
theorem c2_counter :
    ((tickRoom 100000 c2Room).2.contains
       (OutMsg.gameOver "Alice" "8 legally pocketed") = true) ∧
    ((handleShoot (tickRoom 100000 c2Room).1 "idB" mEx).map Prod.snd
       = some [OutMsg.stateMsg]) ∧
    ((handleShoot (tickRoom 100000 c2Room).1 "idB" mEx).map
       (fun x => x.1.shotInProgress) = some true) := by
  decide

/-- Claim C2, amended theorem. -/
theorem c2_amended (room : Room) (sender : String) (m : ShootMsg) (tp : Player)
    (hget : room.players[room.turnIndex]? = some tp)
    (hid : tp.id = sender)
    (hstop : allStopped room.state.balls = true)
    (hbih : room.ballInHand = false)
    (hcue : (room.state.balls.find? (fun b => b.id == "cue")).isNone = false) :
    handleShoot room sender m =
      some ({ room with
          lastShooterId := some sender
          shotInProgress := true
          pocketCountAtShot := room.state.pocketed.length
          state := { room.state with
            balls := updateFirst (fun b => b.id == "cue")
                (fun b => { b with
                  vx := m.dirCos * jsOr m.power 0 * SHOOT_SCALE,
                  vy := m.dirSin * jsOr m.power 0 * SHOOT_SCALE })
                room.state.balls } },
        [OutMsg.stateMsg]) := by
  simp [handleShoot, hget, hid, hstop, hbih, hcue]

/-- Witness for the amended C2 theorem. -/
theorem c2_amended_witness :
    ((tickRoom 100000 c2Room).1.players[(tickRoom 100000 c2Room).1.turnIndex]?).map
      Player.id = some "idB" ∧
    (handleShoot (tickRoom 100000 c2Room).1 "idB" mEx).map Prod.snd
      = some [OutMsg.stateMsg] := by
  refine ⟨by decide, ?_⟩
  rw [c2_amended (tickRoom 100000 c2Room).1 "idB" mEx pB (by decide) (by decide)
    (by decide) (by decide) (by decide)]
  rfl

/-- Helper: the pocketed-event handler leaves lastActive and code alone. -/
theorem handlePocketedEvents_fields (r : Room) (pn : List Ball) :
    (handlePocketedEvents r pn).1.lastActive = r.lastActive ∧
    (handlePocketedEvents r pn).1.code = r.code := by
  simp only [handlePocketedEvents]
  split <;> exact ⟨rfl, rfl⟩

/-- Helper: the shot lifecycle leaves lastActive and code alone. -/
theorem shotLifecycle_fields (r : Room) :
    (shotLifecycle r).lastActive = r.lastActive ∧
    (shotLifecycle r).code = r.code := by
  simp only [shotLifecycle]
  split <;> exact ⟨rfl, rfl⟩

/-- Helper: the broadcast throttle leaves lastActive and code alone. -/
theorem broadcastPhase_fields (now : Int) (r : Room) :
    (broadcastPhase now r).1.lastActive = r.lastActive ∧
    (broadcastPhase now r).1.code = r.code := by
  simp only [broadcastPhase]
  split <;> exact ⟨rfl, rfl⟩

/-- Helper: a room tick always stamps lastActive with the tick time. -/
theorem tickRoom_lastActive (now : Int) (r : Room) :
    (tickRoom now r).1.lastActive = now := by
  simp only [tickRoom]
  rw [(broadcastPhase_fields _ _).1, (shotLifecycle_fields _).1]
  split
  · rfl
  · rw [(handlePocketedEvents_fields _ _).1]

/-- Helper: a room tick preserves the room code. -/
theorem tickRoom_code (now : Int) (r : Room) :
    (tickRoom now r).1.code = r.code := by
  simp only [tickRoom]
  rw [(broadcastPhase_fields _ _).2, (shotLifecycle_fields _).2]
  split
  · rfl
  · rw [(handlePocketedEvents_fields _ _).2]

/-- Claim C9 theorem: whenever one interval callback takes at most the
grace period (nowTime - now bounds the callback duration), the cleanup
deletes nothing: every room, including one with zero seated players,
survives the tick, because lastActive was refreshed to now at the top of
the same callback. -/
theorem c9_no_idle_purge (rooms : List Room) (now nowTime : Int)
    (h : nowTime - now ≤ ROOM_IDLE_MS) :
    ((tickRooms now nowTime rooms).1).map Room.code = rooms.map Room.code := by
  simp only [tickRooms]
  have h2 : ∀ x ∈ (rooms.map (tickRoom now)).map Prod.fst,
      (!(x.players.isEmpty &&
         decide (ROOM_IDLE_MS < nowTime - x.lastActive))) = true := by
    intro x hx
    simp only [List.mem_map] at hx
    obtain ⟨y, hy, rfl⟩ := hx
    obtain ⟨z, _, rfl⟩ := hy
    rw [tickRoom_lastActive]
    have hnl : ¬ (ROOM_IDLE_MS < nowTime - now) := not_lt.mpr h
    simp [hnl]
  rw [List.filter_eq_self.mpr h2]
  rw [List.map_map, List.map_map]
  apply List.map_congr_left
  intro x _
  exact tickRoom_code now x

/-- Witness for the C9 theorem at a zero-player room. -/
theorem c9_no_idle_purge_witness :
    (1001 : Int) - 1000 ≤ ROOM_IDLE_MS ∧
    ((tickRooms 1000 1001 [c9Room]).1).map Room.code = ["IDLE"] ∧
    c9Room.players.isEmpty = true := by
  refine ⟨by decide, ?_, by decide⟩
  rw [c9_no_idle_purge [c9Room] 1000 1001 (by decide)]
  decide


/-- Helper: two Boolean any-scans agree when the tests agree on members. -/
theorem any_congr_mem {α : Type} (l : List α) (f g : α → Bool)
    (h : ∀ a ∈ l, f a = g a) : l.any f = l.any g := by
  induction l with
  | nil => rfl
  | cons a as ih =>
    simp only [List.any_cons]
    rw [h a (by simp), ih (fun x hx => h x (by simp [hx]))]

/-- Helper: an any-scan with a constantly false test is false. -/
theorem any_const_false {α : Type} (l : List α) :
    (l.any fun _ => false) = false := by
  induction l <;> simp [*]

/-- Helper: with no group the turn loop's test holds of no ball. -/
theorem madeBall_none (pb : Ball) : madeBall none pb = false := by
  simp [madeBall]

/-- Helper: on a qualifying object ball the turn loop's group test agrees
with the specification-side own-group test. -/
theorem madeBall_eq_specOwn (g : Group) (pb : Ball)
    (h1 : 1 ≤ pb.num) (h8 : pb.num ≠ 8) (h15 : pb.num ≤ 15) :
    madeBall (some g) pb = specOwn (some g) pb.num := by
  cases g
  · simp only [madeBall, specOwn]
    rw [decide_eq_decide]
    constructor
    · rintro (⟨-, hb⟩ | ⟨h, -⟩)
      · exact hb
      · exact absurd h (by simp)
    · intro h
      exact Or.inl ⟨by simp, h⟩
  · simp only [madeBall, specOwn]
    rw [decide_eq_decide]
    constructor
    · rintro (⟨h, -⟩ | ⟨-, hb⟩)
      · exact absurd h (by simp)
      · omega
    · intro h
      exact Or.inr ⟨by simp, by omega⟩

/-- Helper: on a qualifying object ball the negated group test agrees with
the specification-side opponent-group test. -/
theorem madeBall_not_eq_specOpp (g : Group) (pb : Ball)
    (h1 : 1 ≤ pb.num) (h8 : pb.num ≠ 8) (h15 : pb.num ≤ 15) :
    (!madeBall (some g) pb) = specOpp (some g) pb.num := by
  cases g
  · simp only [madeBall, specOpp]
    rw [← decide_not, decide_eq_decide]
    constructor
    · intro h
      have hb : ¬(1 ≤ pb.num ∧ pb.num ≤ 7) := fun hc => h (Or.inl ⟨by simp, hc⟩)
      omega
    · rintro hb (⟨-, hc⟩ | ⟨h2, -⟩)
      · omega
      · exact absurd h2 (by simp)
  · simp only [madeBall, specOpp]
    rw [← decide_not, decide_eq_decide]
    constructor
    · intro h
      have hb : ¬¬(1 ≤ pb.num ∧ pb.num ≤ 7) :=
        fun hc => h (Or.inr ⟨by simp, hc⟩)
      exact not_not.mp hb
    · rintro hb (⟨h2, -⟩ | ⟨-, hc⟩)
      · exact absurd h2 (by simp)
      · exact absurd hb hc

/-- Helper: membership in the qualifying captures gives the bounds the
pointwise lemmas need. -/
theorem objectBalls_mem {l : List Ball} {pb : Ball}
    (h : pb ∈ objectBalls l) : pb ∈ l ∧ 1 ≤ pb.num ∧ pb.num ≠ 8 := by
  rw [objectBalls, List.mem_filter] at h
  obtain ⟨hmem, hcond⟩ := h
  have hc := of_decide_eq_true hcond
  push_neg at hc
  exact ⟨hmem, by omega, hc.2⟩

/-- Helper: the code's turn decision (at least one own-group capture and
none of the opponent's) coincides with the specification-side retention
rule, for captures with ball numbers at most 15. -/
theorem retain_decision_eq (asg : Option (List (String × Group)))
    (sh : Option String) (l : List Ball)
    (h15 : ∀ pb ∈ l, pb.num ≤ 15) :
    (madeOwnOf asg sh l && !(madeOppOf asg sh l))
      = specRetains
          (match asg, sh with
           | some m, some s => List.lookup s m
           | _, _ => none) l := by
  match asg, sh with
  | none, none =>
    simp [madeOwnOf, madeOppOf, specRetains, specOwn, any_const_false]
  | none, some s =>
    simp [madeOwnOf, madeOppOf, specRetains, specOwn, any_const_false]
  | some m, none =>
    simp [madeOwnOf, madeOppOf, specRetains, specOwn, any_const_false]
  | some m, some s =>
    simp only [madeOwnOf, madeOppOf, specRetains]
    match hsg : List.lookup s m with
    | none =>
      simp [madeBall_none, specOwn, any_const_false]
    | some g =>
      have hown : (objectBalls l).any (madeBall (some g))
          = (objectBalls l).any (fun pb => specOwn (some g) pb.num) := by
        apply any_congr_mem
        intro pb hpb
        obtain ⟨hmem, hge, hne⟩ := objectBalls_mem hpb
        exact madeBall_eq_specOwn g pb hge hne (h15 pb hmem)
      have hopp : (objectBalls l).any (fun pb => !madeBall (some g) pb)
          = (objectBalls l).any (fun pb => specOpp (some g) pb.num) := by
        apply any_congr_mem
        intro pb hpb
        obtain ⟨hmem, hge, hne⟩ := objectBalls_mem hpb
        exact madeBall_not_eq_specOpp g pb hge hne (h15 pb hmem)
      rw [hown, hopp]

/-- Helper: the shot lifecycle is the identity unless a shot is in flight
and the room is at rest. -/
theorem shotLifecycle_id (r : Room)
    (h : (r.shotInProgress && allStopped r.state.balls) = false) :
    shotLifecycle r = r := by
  simp [shotLifecycle, h]

/-- Helper: the broadcast throttle leaves turnIndex and shotInProgress
alone. -/
theorem broadcastPhase_turn (now : Int) (r : Room) :
    (broadcastPhase now r).1.turnIndex = r.turnIndex ∧
    (broadcastPhase now r).1.shotInProgress = r.shotInProgress := by
  simp only [broadcastPhase]
  split <;> exact ⟨rfl, rfl⟩

/-- Claim C1, counterexample: in the mid-shot state c1Room the tick
captures the opponent ball 9 while the cue ball is still crossing the
table at speed; the shot is resolved immediately, the turn passed and the
shot flag cleared, although the room is not at rest afterwards. -/
theorem c1_counter :
    c1Room.shotInProgress = true ∧
    (tickRoom 100000 c1Room).1.shotInProgress = false ∧
    (tickRoom 100000 c1Room).1.turnIndex = 1 ∧
    c1Room.turnIndex = 0 ∧
    allStopped (tickRoom 100000 c1Room).1.state.balls = false ∧
    (tickRoom 100000 c1Room).1.state.pocketed = [1, 9] := by
  decide

/-- Claim C1, amended theorem: outcomes are resolved per tick, not at
rest.  First conjunct: the tick that captures at least one ball resolves
immediately from that tick's captures alone - the shot flag and shooter
are cleared, ball-in-hand is raised exactly on a cue capture, and the turn
follows the four-case rule applied to this tick's captures (cue scratch
always passes; otherwise retain iff an own-group and no opponent-group
ball was captured this tick, classified by the post-assignment shooter
group).  Second: the lifecycle step changes nothing unless a shot is in
flight with the room at rest.  Third: a shot ending at rest with no
capture since the shot began passes the turn and clears the bookkeeping.
Fourth: a full tick with no capture and balls still moving leaves the turn
and the in-flight flag unchanged. -/
theorem c1_amended (room : Room) (pocketedNow : List Ball) (now : Int)
    (h15 : ∀ pb ∈ pocketedNow, pb.num ≤ 15) :
    ((handlePocketedEvents room pocketedNow).1.shotInProgress = false ∧
     (handlePocketedEvents room pocketedNow).1.lastShooterId = none ∧
     (handlePocketedEvents room pocketedNow).1.ballInHand
       = (room.ballInHand || pocketedNow.any (fun p => p.num == 0)) ∧
     (handlePocketedEvents room pocketedNow).1.turnIndex
       = (if pocketedNow.any (fun p => p.num == 0)
          then advanceTurn room.turnIndex room.players
          else if specRetains (shooterGroupAfter room pocketedNow) pocketedNow
               then room.turnIndex
               else advanceTurn room.turnIndex room.players)) ∧
    (∀ r : Room, (r.shotInProgress && allStopped r.state.balls) = false →
       shotLifecycle r = r) ∧
    (∀ r : Room, r.shotInProgress = true → allStopped r.state.balls = true →
       r.state.pocketed.length = r.pocketCountAtShot →
       (shotLifecycle r).turnIndex = advanceTurn r.turnIndex r.players ∧
       (shotLifecycle r).shotInProgress = false ∧
       (shotLifecycle r).lastShooterId = none) ∧
    (∀ r : Room,
       (pocketPhase (tickPhysics r.state.balls)).2 = [] →
       (r.shotInProgress
         && allStopped (pocketPhase (tickPhysics r.state.balls)).1) = false →
       (tickRoom now r).1.turnIndex = r.turnIndex ∧
       (tickRoom now r).1.shotInProgress = r.shotInProgress) := by
  refine ⟨⟨rfl, rfl, ?_, ?_⟩, shotLifecycle_id, ?_, ?_⟩
  · -- ball-in-hand is raised exactly on a cue capture
    simp only [handlePocketedEvents]
    cases hcue : pocketedNow.any (fun p => p.num == 0) <;> simp [hcue]
  · -- the four-case turn rule on this tick's captures
    simp only [handlePocketedEvents, shooterGroupAfter]
    simp only [← retain_decision_eq
      (assignGroups room.players (shooterOf room) room.assigned pocketedNow).1
      (shooterOf room) pocketedNow h15]
    cases hcue : pocketedNow.any (fun p => p.num == 0)
    · cases h1 : madeOwnOf
          (assignGroups room.players (shooterOf room) room.assigned
            pocketedNow).1 (shooterOf room) pocketedNow <;>
        cases h2 : madeOppOf
          (assignGroups room.players (shooterOf room) room.assigned
            pocketedNow).1 (shooterOf room) pocketedNow <;>
        simp [hcue, h1, h2]
    · simp [hcue]
  · -- shot ends at rest with no capture since the shot began
    intro r h1 h2 h3
    have hcond : (r.shotInProgress && allStopped r.state.balls) = true := by
      rw [h1, h2]
      rfl
    have hz : r.state.pocketed.length - r.pocketCountAtShot = 0 := by
      rw [h3]
      exact Nat.sub_self _
    refine ⟨?_, ?_, ?_⟩ <;> simp [shotLifecycle, hcond, hz]
  · -- tick with no capture and balls still moving
    intro r hcap hmove
    simp only [tickRoom, hcap, List.map_nil, List.append_nil,
      List.isEmpty_nil, if_true, ite_true]
    rw [shotLifecycle_id _ hmove]
    exact ⟨(broadcastPhase_turn now _).1, (broadcastPhase_turn now _).2⟩

/-- Witness for the amended C1 theorem at a concrete capture list. -/
theorem c1_amended_witness :
    (∀ pb ∈ [c1CapB], pb.num ≤ 15) ∧
    (handlePocketedEvents c1Room [c1CapB]).1.shotInProgress = false ∧
    (handlePocketedEvents c1Room [c1CapB]).1.turnIndex
      = (if [c1CapB].any (fun p => p.num == 0)
         then advanceTurn c1Room.turnIndex c1Room.players
         else if specRetains (shooterGroupAfter c1Room [c1CapB]) [c1CapB]
              then c1Room.turnIndex
              else advanceTurn c1Room.turnIndex c1Room.players) := by
  have h := c1_amended c1Room [c1CapB] 0 (by decide)
  exact ⟨by decide, h.1.1, h.1.2.2.2⟩


/-- Helper: one assignment step on an already-set map is the identity. -/
theorem assignStep_some (players : List Player) (shooter : Option String)
    (m : List (String × Group)) (msgs : List OutMsg) (pb : Ball) :
    assignStep players shooter (some m, msgs) pb = (some m, msgs) := by
  simp only [assignStep]
  split
  · rfl
  · rfl

/-- Helper: folding assignment steps from an already-set map changes
nothing. -/
theorem assignGroups_foldl_some (players : List Player)
    (shooter : Option String) (m : List (String × Group)) (msgs : List OutMsg)
    (pn : List Ball) :
    pn.foldl (assignStep players shooter) (some m, msgs) = (some m, msgs) := by
  induction pn generalizing msgs with
  | nil => rfl
  | cons pb pbs ih =>
    rw [List.foldl_cons, assignStep_some]
    exact ih msgs

/-- Helper: a set assignment survives the assignment loop unchanged. -/
theorem assignGroups_some (players : List Player) (shooter : Option String)
    (m : List (String × Group)) (pn : List Ball) :
    assignGroups players shooter (some m) pn = (some m, []) :=
  assignGroups_foldl_some players shooter m [] pn

/-- Helper: the assignment loop's first component from any already-set
start. -/
theorem assignGroups_some_fst (players : List Player)
    (shooter : Option String) (asg : Option (List (String × Group)))
    (pn : List Ball) (g : List (String × Group)) (h : asg = some g) :
    (assignGroups players shooter asg pn).1 = some g := by
  subst h
  rw [assignGroups_some]

/-- Helper: the pocketed-event handler's assignment is exactly the
assignment loop's result. -/
theorem handlePocketedEvents_assigned (r : Room) (pn : List Ball) :
    (handlePocketedEvents r pn).1.assigned
      = (assignGroups r.players (shooterOf r) r.assigned pn).1 := by
  simp only [handlePocketedEvents]
  split <;> rfl

/-- Helper: the shot lifecycle leaves the assignment alone. -/
theorem shotLifecycle_assigned (r : Room) :
    (shotLifecycle r).assigned = r.assigned := by
  simp only [shotLifecycle]
  split <;> rfl

/-- Helper: the broadcast throttle leaves the assignment alone. -/
theorem broadcastPhase_assigned (now : Int) (r : Room) :
    (broadcastPhase now r).1.assigned = r.assigned := by
  simp only [broadcastPhase]
  split <;> rfl

/-- Helper: the shoot handler leaves the assignment alone. -/
theorem handleShoot_assigned (room : Room) (s : String) (m : ShootMsg) :
    ∀ x ∈ handleShoot room s m, x.1.assigned = room.assigned := by
  intro x hx
  rw [Option.mem_def] at hx
  match hp : room.players[room.turnIndex]? with
  | none =>
    simp only [handleShoot, hp] at hx
    exact Option.noConfusion hx
  | some tp =>
    simp only [handleShoot, hp] at hx
    split_ifs at hx <;>
      first
      | (rw [Option.some.injEq] at hx; subst hx; rfl)
      | (subst hx; rfl)

/-- Helper: the place_cue handler leaves the assignment alone. -/
theorem handlePlaceCue_assigned (room : Room) (s : String) (mx my : Option ℚ) :
    ∀ x ∈ handlePlaceCue room s mx my, x.1.assigned = room.assigned := by
  intro x hx
  rw [Option.mem_def] at hx
  match hp : room.players[room.turnIndex]? with
  | none =>
    simp only [handlePlaceCue, hp] at hx
    split_ifs at hx <;>
      first
      | exact Option.noConfusion hx
      | (rw [Option.some.injEq] at hx; subst hx; rfl)
      | (subst hx; rfl)
  | some tp =>
    simp only [handlePlaceCue, hp] at hx
    split_ifs at hx <;>
      first
      | exact Option.noConfusion hx
      | (rw [Option.some.injEq] at hx; subst hx; rfl)
      | (subst hx; rfl)

/-- Helper: the close handler leaves the assignment alone. -/
theorem handleClose_assigned (room : Room) (wsId : String) (now : Int) :
    ∀ x ∈ (handleClose room wsId now).1, x.assigned = room.assigned := by
  intro x hx
  rw [Option.mem_def] at hx
  simp only [handleClose] at hx
  split_ifs at hx <;>
    first
    | (subst hx; rfl)
    | (rw [Option.some.injEq] at hx; subst hx; rfl)
    | exact Option.noConfusion hx

/-- Helper: the join handler leaves the assignment alone. -/
theorem handleJoin_assigned (room : Room) (wsId name : String) :
    (handleJoin room wsId name).1.assigned = room.assigned := by
  simp only [handleJoin]
  split <;> rfl

/-- Helper: with no shooter one assignment step is the identity. -/
theorem assignStep_shooter_none (players : List Player)
    (acc : Option (List (String × Group)) × List OutMsg) (pb : Ball) :
    assignStep players none acc pb = acc := by
  obtain ⟨a1, a2⟩ := acc
  simp only [assignStep]
  split
  · rfl
  · cases a1 <;> rfl

/-- Helper: the assignment loop, started unset, either stays unset or
builds the full one-entry-per-seat map from the shooter and a solidness
flag. -/
theorem assignGroups_none_shape (players : List Player) (sh : String)
    (pn : List Ball) :
    (assignGroups players (some sh) none pn).1 = none ∨
    ∃ b : Bool,
      (assignGroups players (some sh) none pn).1
        = some (players.map (fun pl =>
            (pl.id,
              if pl.id = sh then (if b then Group.solids else Group.stripes)
              else (if b then Group.stripes else Group.solids)))) := by
  simp only [assignGroups]
  induction pn with
  | nil => exact Or.inl rfl
  | cons pb pbs ih =>
    rw [List.foldl_cons]
    by_cases h0 : pb.num = 0 ∨ pb.num = 8
    · simp only [assignStep, if_pos h0]
      exact ih
    · simp only [assignStep, if_neg h0]
      right
      refine ⟨decide (1 ≤ pb.num ∧ pb.num ≤ 7), ?_⟩
      rw [assignGroups_foldl_some]

/-- Helper: in a two-seat room with distinct ids and the shooter seated,
the freshly-built assignment maps the two seats to complementary
groups. -/
theorem assignGroups_pair_shape (p1 p2 : Player) (sh : String)
    (pn : List Ball) (asg : List (String × Group))
    (hne : p1.id ≠ p2.id) (hsh : sh = p1.id ∨ sh = p2.id)
    (hres : (assignGroups [p1, p2] (some sh) none pn).1 = some asg) :
    ∃ gr : Group, asg = [(p1.id, gr), (p2.id, gr.other)] := by
  rcases assignGroups_none_shape [p1, p2] sh pn with h | ⟨b, h⟩
  · rw [h] at hres
    exact absurd hres (by simp)
  · rw [h, Option.some.injEq] at hres
    subst hres
    rcases hsh with rfl | rfl
    · have h21 : ¬p2.id = p1.id := fun hc => hne hc.symm
      refine ⟨if b then Group.solids else Group.stripes, ?_⟩
      cases b <;> simp [h21, Group.other]
    · refine ⟨if b then Group.stripes else Group.solids, ?_⟩
      cases b <;> simp [hne, Group.other]

/-- Claim C6 theorem: the group assignment is written at most once.  A set
assignment survives the tick (the assignment loop is guarded by the unset
check) and every message handler unchanged; and the assignment, when the
loop does set it for a two-seat room whose shooter is seated, maps the two
seats to the two complementary groups. -/
theorem c6_assigned_once (room : Room) (g : List (String × Group))
    (now : Int) (sender wsId name : String) (m : ShootMsg) (mx my : Option ℚ)
    (hg : room.assigned = some g) :
    (tickRoom now room).1.assigned = some g ∧
    (∀ x ∈ handleShoot room sender m, x.1.assigned = some g) ∧
    (∀ x ∈ handlePlaceCue room sender mx my, x.1.assigned = some g) ∧
    (∀ x ∈ (handleClose room wsId now).1, x.assigned = some g) ∧
    (handleJoin room wsId name).1.assigned = some g ∧
    (∀ (p1 p2 : Player) (sh : String) (pn : List Ball)
       (asg : List (String × Group)),
       p1.id ≠ p2.id → (sh = p1.id ∨ sh = p2.id) →
       (assignGroups [p1, p2] (some sh) none pn).1 = some asg →
       ∃ gr : Group, asg = [(p1.id, gr), (p2.id, gr.other)]) := by
  refine ⟨?_, ?_, ?_, ?_, ?_, ?_⟩
  · simp only [tickRoom]
    rw [broadcastPhase_assigned, shotLifecycle_assigned]
    split
    · exact hg
    · rw [handlePocketedEvents_assigned]
      exact assignGroups_some_fst _ _ _ _ g hg
  · intro x hx
    rw [handleShoot_assigned room sender m x hx]
    exact hg
  · intro x hx
    rw [handlePlaceCue_assigned room sender mx my x hx]
    exact hg
  · intro x hx
    rw [handleClose_assigned room wsId now x hx]
    exact hg
  · rw [handleJoin_assigned]
    exact hg
  · exact fun p1 p2 sh pn asg => assignGroups_pair_shape p1 p2 sh pn asg

/-- Witness for the C6 theorem: a concrete set assignment survives a tick,
and a concrete first capture builds the complementary two-seat map. -/
theorem c6_assigned_once_witness :
    (tickRoom 7 c3Room).1.assigned
      = some [("idA", Group.solids), ("idB", Group.stripes)] ∧
    ∃ gr : Group,
      ([("idA", Group.solids), ("idB", Group.stripes)] : List (String × Group))
        = [(pA.id, gr), (pB.id, gr.other)] := by
  have h := c6_assigned_once c3Room
    [("idA", Group.solids), ("idB", Group.stripes)] 7 "idA" "idB" "N" mEx
    none none (by decide)
  exact ⟨h.1, h.2.2.2.2.2 pA pB "idA" [c6Cap]
    [("idA", Group.solids), ("idB", Group.stripes)]
    (by decide) (Or.inl (by decide)) (by decide)⟩


/-- Helper: setting a list index to the value already there is the
identity. -/
theorem set_getElem_self {α : Type} (l : List α) (i : Nat) (x : α)
    (h : l[i]? = some x) : l.set i x = l := by
  induction l generalizing i with
  | nil => simp at h
  | cons a as ih =>
    cases i with
    | zero =>
      simp only [List.getElem?_cons_zero, Option.some.injEq] at h
      subst h
      rfl
    | succ n =>
      simp only [List.getElem?_cons_succ] at h
      simp only [List.set_cons_succ]
      rw [ih n h]

/-- Helper: writing a ball with an unchanged number leaves the number
sequence of the array alone. -/
theorem setD_toList_map_num (arr : Array Ball) (i : Nat) (v w : Ball)
    (hw : arr[i]? = some w) (hnum : v.num = w.num) :
    (arr.setD i v).toList.map Ball.num = arr.toList.map Ball.num := by
  simp only [Array.setD]
  split
  · rw [Array.toList_set, List.map_set]
    apply set_getElem_self
    rw [List.getElem?_map]
    rw [show arr.toList[i]? = arr[i]? from rfl, hw, hnum]
    rfl
  · rfl

/-- Helper: writes at another index do not change a lookup. -/
theorem getElem?_setD_ne (arr : Array Ball) (i j : Nat) (v : Ball)
    (hij : i ≠ j) : (arr.setD i v)[j]? = arr[j]? := by
  simp only [Array.setD]
  split
  · exact Array.getElem?_set_ne arr _ v hij
  · rfl

/-- Helper: the resolver alters positions and velocities only, never the
ball numbers. -/
theorem resolve_num (a b : Ball) :
    (resolveBallCollision a b).1.num = a.num ∧
    (resolveBallCollision a b).2.num = b.num := by
  simp only [resolveBallCollision]
  split_ifs <;> exact ⟨rfl, rfl⟩

/-- Helper: the all-pairs collision pass preserves the number sequence. -/
theorem collideAll_map_num (bs : List Ball) :
    (collideAll bs).map Ball.num = bs.map Ball.num := by
  simp only [collideAll]
  apply List.foldlRecOn (motive := fun arr : Array Ball =>
    arr.toList.map Ball.num = bs.map Ball.num)
  · simp
  · intro arr h i _
    apply List.foldlRecOn (motive := fun arr2 : Array Ball =>
      arr2.toList.map Ball.num = bs.map Ball.num)
    · exact h
    · intro arr2 h2 j _
      by_cases hij : i < j
      · simp only [if_pos hij]
        cases ha : arr2[i]? with
        | none =>
          cases hb : arr2[j]? <;> exact h2
        | some a =>
          cases hb : arr2[j]? with
          | none => exact h2
          | some b =>
            have hb2 : (arr2.setD i (resolveBallCollision a b).1)[j]?
                = some b := by
              rw [getElem?_setD_ne _ _ _ _ (Nat.ne_of_lt hij)]
              exact hb
            show ((arr2.setD i (resolveBallCollision a b).1).setD j
              (resolveBallCollision a b).2).toList.map Ball.num
                = bs.map Ball.num
            rw [setD_toList_map_num _ j _ b hb2 (resolve_num a b).2,
              setD_toList_map_num _ i _ a ha (resolve_num a b).1]
            exact h2
      · simp only [if_neg hij]
        exact h2

/-- Helper: per-ball integration keeps the number. -/
theorem integrateBall_num (b : Ball) : (integrateBall b).num = b.num := rfl

/-- Helper: friction keeps the number. -/
theorem applyFriction_num (b : Ball) : (applyFriction b).num = b.num := rfl

/-- Helper: the full physics phase preserves the number sequence. -/
theorem tickPhysics_map_num (bs : List Ball) :
    (tickPhysics bs).map Ball.num = bs.map Ball.num := by
  have hsub : ∀ l : List Ball, (substep l).map Ball.num = l.map Ball.num := by
    intro l
    simp only [substep]
    rw [collideAll_map_num, List.map_map]
    exact List.map_congr_left (fun b _ => rfl)
  simp only [tickPhysics]
  rw [List.map_map]
  calc (substep (substep bs)).map (Ball.num ∘ applyFriction)
      = (substep (substep bs)).map Ball.num :=
        List.map_congr_left (fun b _ => rfl)
    _ = (substep bs).map Ball.num := hsub _
    _ = bs.map Ball.num := hsub _

/-- Helper: the pocket split partitions the number counts. -/
theorem pocketPhase_count (bs : List Ball) (n : Nat) :
    ((pocketPhase bs).1.map Ball.num).count n
      + ((pocketPhase bs).2.map Ball.num).count n
      = (bs.map Ball.num).count n := by
  simp only [pocketPhase]
  rw [List.map_reverse, List.count_reverse]
  induction bs with
  | nil => rfl
  | cons b bss ih =>
    by_cases h : ballShouldPocket b = true
    · simp only [List.filter_cons, h, Bool.not_true, Bool.false_eq_true,
        if_true, if_false, ite_true, ite_false, eq_self_iff_true,
        List.map_cons, List.count_cons]
      omega
    · have hf : ballShouldPocket b = false := by
        revert h
        cases ballShouldPocket b <;> simp
      simp only [List.filter_cons, hf, Bool.not_false, Bool.false_eq_true,
        if_true, if_false, ite_true, ite_false, eq_self_iff_true,
        List.map_cons, List.count_cons]
      omega

/-- Helper: the cap only drops entries, so counts do not grow. -/
theorem capPocketed_count_le (l : List Nat) (n : Nat) :
    (capPocketed l).count n ≤ l.count n := by
  simp only [capPocketed]
  split
  · exact List.Sublist.count_le (List.drop_sublist _ _) n
  · exact le_refl _

/-- Helper: the pocketed-event handler leaves the simulation state
alone. -/
theorem handlePocketedEvents_state (r : Room) (pn : List Ball) :
    (handlePocketedEvents r pn).1.state = r.state := by
  simp only [handlePocketedEvents]
  split <;> rfl

/-- Helper: the shot lifecycle leaves the simulation state alone. -/
theorem shotLifecycle_state (r : Room) : (shotLifecycle r).state = r.state := by
  simp only [shotLifecycle]
  split <;> rfl

/-- Helper: the broadcast throttle leaves the simulation state alone. -/
theorem broadcastPhase_state (now : Int) (r : Room) :
    (broadcastPhase now r).1.state = r.state := by
  simp only [broadcastPhase]
  split <;> rfl

/-- Helper: the tick's simulation state is physics, then the pocket split,
then the capped append of the new captures. -/
theorem tickRoom_state (now : Int) (r : Room) :
    (tickRoom now r).1.state.balls
      = (pocketPhase (tickPhysics r.state.balls)).1 ∧
    (tickRoom now r).1.state.pocketed
      = capPocketed (r.state.pocketed
          ++ (pocketPhase (tickPhysics r.state.balls)).2.map Ball.num) := by
  simp only [tickRoom]
  rw [broadcastPhase_state, shotLifecycle_state]
  split
  · exact ⟨rfl, rfl⟩
  · rw [handlePocketedEvents_state]
    exact ⟨rfl, rfl⟩

/-- Helper: replacing the first matching ball with a number-preserving
update keeps the number sequence. -/
theorem updateFirst_map_num (p : Ball → Bool) (f : Ball → Ball)
    (hf : ∀ b, (f b).num = b.num) (l : List Ball) :
    (updateFirst p f l).map Ball.num = l.map Ball.num := by
  induction l with
  | nil => rfl
  | cons b bs ih =>
    simp only [updateFirst]
    split
    · simp [hf b]
    · simp only [List.map_cons]
      rw [ih]

/-- Claim C3, counterexample: the cue ball's number 0 re-enters the
history on every scratch (here [9, 1, 0] becomes [9, 1, 0, 0] after a
replacement near a pocket and one tick), and once the stored history holds
POCKET_CAP = 128 entries a further capture drops the oldest entries (the
entry at index 113 changes), so the sequence is neither duplicate-free nor
append-only. -/
theorem c3_counter :
    ((handlePlaceCue c3Room "idA" (some 1) (some 1)).map
      (fun x => (tickRoom 100000 x.1).1.state.pocketed)) = some [9, 1, 0, 0] ∧
    (([9, 1, 0, 0] : List Nat).count 0 = 2) ∧
    c3RoomT.state.pocketed.length = 128 ∧
    (tickRoom 100000 c3RoomT).1.state.pocketed.length = 128 ∧
    c3RoomT.state.pocketed[113]? = some 0 ∧
    (tickRoom 100000 c3RoomT).1.state.pocketed[113]? = some 1 := by
  decide

/-- Claim C3, amended theorem: the pocketed history evolves per tick by
appending this tick's captured numbers and then keeping only the last
POCKET_CAP entries; the handlers never touch it.  Each object-ball number
1..15 occurs at most once across the history and the live balls together -
an invariant established by createRoom and preserved by the tick and by
every handler - so an object ball is captured at most once; the cue's 0 is
outside the invariant and may recur. -/
theorem c3_amended (r : Room) (now : Int) (sender wsId code hostName : String)
    (m : ShootMsg) (mx my : Option ℚ) (hInv : PocketInv r) :
    ((tickRoom now r).1.state.pocketed
       = capPocketed (r.state.pocketed
           ++ (pocketPhase (tickPhysics r.state.balls)).2.map Ball.num)) ∧
    PocketInv (tickRoom now r).1 ∧
    (∀ x ∈ handleShoot r sender m,
       x.1.state.pocketed = r.state.pocketed ∧ PocketInv x.1) ∧
    (∀ x ∈ handlePlaceCue r sender mx my,
       x.1.state.pocketed = r.state.pocketed ∧ PocketInv x.1) ∧
    (∀ x ∈ (handleClose r wsId now).1,
       x.state.pocketed = r.state.pocketed ∧ PocketInv x) ∧
    PocketInv (createRoom code hostName now) ∧
    (∀ n, 1 ≤ n → n ≤ 15 → r.state.pocketed.count n ≤ 1) := by
  refine ⟨(tickRoom_state now r).2, ?_, ?_, ?_, ?_, ?_, ?_⟩
  · -- the tick preserves the occupancy invariant
    intro n hn h1
    rw [(tickRoom_state now r).1, (tickRoom_state now r).2]
    have hcap := capPocketed_count_le
      (r.state.pocketed
        ++ (pocketPhase (tickPhysics r.state.balls)).2.map Ball.num) n
    rw [List.count_append] at hcap
    have hsplit := pocketPhase_count (tickPhysics r.state.balls) n
    rw [tickPhysics_map_num] at hsplit
    have hI := hInv n hn h1
    omega
  · -- the shoot handler preserves history and invariant
    intro x hx
    rw [Option.mem_def] at hx
    match hp : r.players[r.turnIndex]? with
    | none =>
      simp only [handleShoot, hp] at hx
      exact Option.noConfusion hx
    | some tp =>
      simp only [handleShoot, hp] at hx
      split_ifs at hx <;> (rw [Option.some.injEq] at hx; subst hx)
      · exact ⟨rfl, hInv⟩
      · exact ⟨rfl, hInv⟩
      · exact ⟨rfl, hInv⟩
      · exact ⟨rfl, hInv⟩
      · refine ⟨rfl, ?_⟩
        intro n hn h1
        have hup : (updateFirst (fun b => b.id == "cue") (fun b => { b with vx := m.dirCos * jsOr m.power 0 * SHOOT_SCALE, vy := m.dirSin * jsOr m.power 0 * SHOOT_SCALE }) r.state.balls).map Ball.num = r.state.balls.map Ball.num := by
          apply updateFirst_map_num
          intro b
          rfl
        show List.count n r.state.pocketed + List.count n ((updateFirst (fun b => b.id == "cue") (fun b => { b with vx := m.dirCos * jsOr m.power 0 * SHOOT_SCALE, vy := m.dirSin * jsOr m.power 0 * SHOOT_SCALE }) r.state.balls).map Ball.num) ≤ 1
        rw [hup]
        exact hInv n hn h1
  · -- the place_cue handler preserves history and invariant
    intro x hx
    rw [Option.mem_def] at hx
    match hp : r.players[r.turnIndex]? with
    | none =>
      simp only [handlePlaceCue, hp] at hx
      split_ifs at hx <;>
        first
        | (rw [Option.some.injEq] at hx; subst hx; exact ⟨rfl, hInv⟩)
        | (subst hx; exact ⟨rfl, hInv⟩)
        | exact Option.noConfusion hx
    | some tp =>
      simp only [handlePlaceCue, hp] at hx
      split_ifs at hx <;> (rw [Option.some.injEq] at hx; subst hx)
      · exact ⟨rfl, hInv⟩
      · exact ⟨rfl, hInv⟩
      · refine ⟨rfl, ?_⟩
        intro n hn h1
        have hsub : ((r.state.balls.filter (fun b => decide (b.id ≠ "cue"))).map Ball.num).count n ≤ (r.state.balls.map Ball.num).count n :=
          List.Sublist.count_le (List.Sublist.map Ball.num (List.filter_sublist _)) n
        have hI := hInv n hn h1
        have hne0 : (0 == n) = false := by
          simp only [beq_eq_false_iff_ne]
          omega
        simp only [List.map_append, List.count_append, List.map_cons,
          List.map_nil, List.count_cons, List.count_nil, hne0,
          Bool.false_eq_true, if_false, ite_false]
        omega
  · -- the close handler preserves history and invariant
    intro x hx
    rw [Option.mem_def] at hx
    simp only [handleClose] at hx
    split_ifs at hx <;>
      first
      | (subst hx; exact ⟨rfl, fun n hn h1 => hInv n hn h1⟩)
      | (rw [Option.some.injEq] at hx; subst hx;
         exact ⟨rfl, fun n hn h1 => hInv n hn h1⟩)
      | exact Option.noConfusion hx
  · -- createRoom establishes the invariant
    intro n hn h1
    have hrack : ∀ k, k < 16 → 1 ≤ k →
        (List.count k (makeRack.map Ball.num)) ≤ 1 := by decide
    simp only [createRoom, List.count_nil, Nat.zero_add]
    exact hrack n hn h1
  · -- the invariant bounds the history itself
    intro n h1 h15
    have hI := hInv n (by omega) h1
    omega

/-- Witness for the amended C3 theorem at the scratch scenario. -/
theorem c3_amended_witness :
    PocketInv c3Room ∧ PocketInv (tickRoom 11 c3Room).1 ∧
    (∀ n, 1 ≤ n → n ≤ 15 → c3Room.state.pocketed.count n ≤ 1) := by
  have h := c3_amended c3Room 11 "idA" "idB" "RM" "Host" mEx none none
    (by decide)
  exact ⟨by decide, h.2.1, h.2.2.2.2.2.2⟩

/-- Claim C10, counterexample to the claimed consequence.  A shoot with a
missing angle is accepted and sets the cue velocity components to nan, and
nan then spreads to the eight ball through the collision correction and
impulse and survives friction; but the || 0 coercion in the at-rest checks
makes the room count as stopped, so the in-flight shot resolves at the
very next tick with the turn passing, and the next player's ordinary shoot
intent is accepted rather than rejected with balls-moving. -/
theorem c10_counter :
    (JS.handleShoot c10Room "idA" c10Msg).map Prod.snd
      = some [OutMsg.stateMsg] ∧
    c10AfterShoot.state.balls.map JS.Ball.vx = [JNum.nan, JNum.num 0] ∧
    c10AfterShoot.shotInProgress = true ∧
    JS.allStopped c10AfterShoot.state.balls = true ∧
    c10AfterTick.state.balls.map JS.Ball.vx = [JNum.nan, JNum.nan] ∧
    c10AfterTick.state.balls.map JS.Ball.x = [JNum.nan, JNum.nan] ∧
    c10AfterTick.shotInProgress = false ∧
    c10AfterTick.turnIndex = 1 ∧
    (JS.handleShoot c10AfterTick "idB" c10MsgB).map Prod.snd
      = some [OutMsg.stateMsg] := by
  decide

/-- Claim C10, amended.  An accepted shoot with a missing or non-numeric
angle does set the cue velocity components to nan, and the friction and
stop-snap pass never clears a nan velocity; but the at-rest checks of the
shot lifecycle and the shoot handler coerce each component by || 0, which
maps nan to 0, so a room whose balls each have nan velocity components or
are genuinely below the stop threshold counts as at rest: an in-flight
shot with no captures since it began resolves immediately with the turn
passing, and any subsequent shoot intent passing the ordinary four checks
is accepted, not rejected with balls-moving. -/
theorem c10_amended :
    (∀ (m : JS.ShootMsg) (b : JS.Ball),
      m.dirCos = JNum.nan → m.dirSin = JNum.nan →
      (JS.shootBall m b).vx = JNum.nan ∧ (JS.shootBall m b).vy = JNum.nan) ∧
    (∀ b : JS.Ball, b.vx = JNum.nan → b.vy = JNum.nan →
      JS.applyFriction b = b) ∧
    (∀ balls : List JS.Ball,
      (∀ b ∈ balls, (b.vx = JNum.nan ∧ b.vy = JNum.nan) ∨
        hypotSq b.vx.orZero b.vy.orZero < STOP_THRESH ^ 2) →
      JS.allStopped balls = true) ∧
    (∀ room : JS.Room, room.shotInProgress = true →
      JS.allStopped room.state.balls = true →
      room.state.pocketed.length = room.pocketCountAtShot →
      JS.shotLifecycle room =
        { room with
            turnIndex := advanceTurn room.turnIndex room.players
            shotInProgress := false
            pocketCountAtShot := room.state.pocketed.length
            lastShooterId := none }) ∧
    (∀ (room : JS.Room) (sender : String) (m : JS.ShootMsg) (tp : Player),
      room.players[room.turnIndex]? = some tp → tp.id = sender →
      JS.allStopped room.state.balls = true → room.ballInHand = false →
      (room.state.balls.find? (fun b => b.id == "cue")).isNone = false →
      (JS.handleShoot room sender m).map Prod.snd
        = some [OutMsg.stateMsg]) := by
  refine ⟨?_, ?_, ?_, ?_, ?_⟩
  · intro m b hc hs
    rw [JS.shootBall, hc, hs]
    exact ⟨rfl, rfl⟩
  · intro b hx hy
    obtain ⟨i, n, x, y, r, vx, vy, s⟩ := b
    cases hx
    cases hy
    rfl
  · intro balls h
    simp only [JS.allStopped, List.all_eq_true]
    intro b hb
    rcases h b hb with ⟨hx, hy⟩ | hlt
    · rw [hx, hy]
      decide
    · exact decide_eq_true hlt
  · intro room h1 h2 h3
    have h0 : room.state.pocketed.length - room.pocketCountAtShot = 0 := by
      omega
    simp only [JS.shotLifecycle, h1, h2, Bool.and_self, if_true, h0]
  · intro room sender m tp hget hid hstop hbih hcue
    simp [JS.handleShoot, hget, hid, hstop, hbih, hcue]

/-- Witness for every part of the amended C10 theorem at concrete
inputs. -/
theorem c10_amended_witness :
    ((JS.shootBall c10Msg c10NanBall).vx = JNum.nan ∧
     (JS.shootBall c10Msg c10NanBall).vy = JNum.nan) ∧
    JS.applyFriction c10NanBall = c10NanBall ∧
    JS.allStopped [c10NanBall] = true ∧
    JS.shotLifecycle c10AfterShoot =
      { c10AfterShoot with
          turnIndex := advanceTurn c10AfterShoot.turnIndex c10AfterShoot.players
          shotInProgress := false
          pocketCountAtShot := c10AfterShoot.state.pocketed.length
          lastShooterId := none } ∧
    (JS.handleShoot c10AfterTick "idB" c10MsgB).map Prod.snd
      = some [OutMsg.stateMsg] :=
  ⟨c10_amended.1 c10Msg c10NanBall rfl rfl,
   c10_amended.2.1 c10NanBall rfl rfl,
   c10_amended.2.2.1 [c10NanBall] (by decide),
   c10_amended.2.2.2.1 c10AfterShoot (by decide) (by decide) (by decide),
   c10_amended.2.2.2.2 c10AfterTick "idB" c10MsgB pB (by decide) rfl
     (by decide) (by decide) (by decide)⟩

end Pool
